import Mathlib

/-!
# tftp-void: the protocol engine of `src/lib/tftpv_server.c`

A shallow embedding of the TFTP server library.

* Bytes, block numbers, opcodes and error codes are natural numbers; every
  conversion to `uint16_t` is an explicit `% 65536`, and the comparison
  `block_number != c->expected_block_number - 1` is carried out in `Int`, as C
  does after integer promotion.
* Memory objects (`buffer`, `ack_buffer`, `error_buffer`, `data_buffer`) are
  lists of bytes of the object's size.  An access outside the object is
  undefined behaviour in C and is reported as a `Fault`.
* The received `buffer` is a memory object that may be longer than the
  `length` handed to `tftpv_server_parse` (the examples receive into a
  516-byte array).
* The transport, resolver and backend callbacks are recorded in an event log,
  in the order in which the engine invokes them; the backend state the
  callbacks work on is threaded explicitly.
* The in-memory backend of `src/examples/serve-in-memory.c` (`write_memfile`,
  `read_memfile`, the table `files`) works on `filedata` values; `size_t` is
  taken to be 64 bits wide, and a callback that runs into undefined behaviour
  records the fault in the backend state.
-/

namespace Tftpv

set_option maxRecDepth 8000

/-! ## Data model (`tftpv_server.h`) -/

/-- Undefined behaviour of the C program that the embedding detects: a read or
a write outside a memory object, and the use of a NULL pointer (dereferenced
or called). -/
inductive Fault where
  | out_of_bounds_read
  | out_of_bounds_write
  | null_pointer
  deriving DecidableEq, Repr

/-- Observable actions of the engine: a datagram handed to `send_datagram`,
and the invocations of `search_file`, `read_block` and `write_block`. -/
inductive Event where
  | send_datagram (buf : List Nat)
  | search_file (filename : List Nat)
  | read_block (block_number : Nat)
  | write_block (block : List Nat) (block_number : Nat) (block_length : Nat)
  deriving DecidableEq, Repr

def TFTPV_OP_RRQ : Nat := 1
def TFTPV_OP_WRQ : Nat := 2
def TFTPV_OP_DATA : Nat := 3
def TFTPV_OP_ACK : Nat := 4
def TFTPV_OP_ERROR : Nat := 5

def TFTPV_ERR_UNDEFINED : Nat := 0
def TFTPV_ERR_FILE_NOT_FOUND : Nat := 1
def TFTPV_ERR_ACCESS_VIOLATION : Nat := 2
def TFTPV_ERR_DISK_FULL : Nat := 3
def TFTPV_ERR_ILLEGAL_OPERATION : Nat := 4
def TFTPV_ERR_UNKNOWN_TID : Nat := 5
def TFTPV_ERR_FILE_EXISTS : Nat := 6
def TFTPV_ERR_NO_SUCH_USER : Nat := 7

/-- The bytes of a C string literal, without its terminating NUL. -/
def cstr (s : String) : List Nat := s.toList.map Char.toNat

/-- The struct `tftpv_error_t`: a code and a message (the bytes of the C string
before its NUL).  The value `{0}` is code 0 with no message. -/
structure tftpv_error where
  code : Nat
  message : List Nat
  deriving DecidableEq, Repr

/-- The struct `tftpv_file_t` over a backend state `σ`.  `filename` is `none`
for the NULL name of the list sentinel; a callback is `none` when the function
pointer is NULL.  `write_block block block_number block_length` returns what it
left in `*err`; `read_block block_number` returns the bytes it stored through
its `block` pointer (their number is its return value) and what it left in
`*err`.  The `reading_file` / `writing_file` argument is the file itself and is
captured by the closure. -/
structure tftpv_file (σ : Type) where
  filename : Option (List Nat)
  write_block : Option (List Nat → Nat → Nat → σ → tftpv_error × σ)
  read_block : Option (Nat → σ → List Nat × tftpv_error × σ)
  userdata : Nat

/-- The struct `tftpv_serverctx_t`.  `send_datagram` is modelled by the event
log; the `*_userdata` pointers live in the backend state. `current_file` is
`none` for NULL. -/
structure tftpv_serverctx (σ : Type) where
  search_file : List Nat → σ → Option (tftpv_file σ) × σ
  current_file : Option (tftpv_file σ)
  expected_block_number : Nat
  current_operation : Nat

/-- Everything a call of the engine can change: the context, the backend state
behind the callbacks, and the log of events so far. -/
structure State (σ : Type) where
  ctx : tftpv_serverctx σ
  backend : σ
  log : List Event

/-! ## Memory accesses -/

/-- Read `buf[i]`. -/
def load (buf : List Nat) (i : Nat) : Except Fault Nat :=
  match buf[i]? with
  | some v => .ok v
  | none => .error .out_of_bounds_read

/-- The assignment `buf[i] = v`. -/
def store (buf : List Nat) (i : Nat) (v : Nat) : Except Fault (List Nat) :=
  if i < buf.length then .ok (buf.set i v) else .error .out_of_bounds_write

/-- The call `memcpy(buf + off, src, n)` with `n` the length of `src`. -/
def memcpy (buf : List Nat) (off : Nat) (src : List Nat) : Except Fault (List Nat) :=
  if off + src.length ≤ buf.length then
    .ok (buf.take off ++ src ++ buf.drop (off + src.length))
  else .error .out_of_bounds_write

/-- The first `len` bytes of `buf`, as the transport reads them. -/
def load_bytes (buf : List Nat) (len : Nat) : Except Fault (List Nat) :=
  if len ≤ buf.length then .ok (buf.take len) else .error .out_of_bounds_read

/-- Length of the C string that starts at the head of `mem`. -/
def strlen_from : List Nat → Except Fault Nat
  | [] => .error .out_of_bounds_read
  | x :: xs =>
    if x = 0 then .ok 0
    else match strlen_from xs with
      | .ok n => .ok (n + 1)
      | .error e => .error e

/-- The call `strlen(mem + off)`: the scan stops at the first NUL, wherever in
the memory object it is. -/
def strlen (mem : List Nat) (off : Nat) : Except Fault Nat :=
  strlen_from (mem.drop off)

/-- Compare the C string at the head of `mem` with a NUL-free literal; the
result is the difference of the first differing bytes. -/
def strcmp_from : List Nat → List Nat → Except Fault Int
  | [], _ => .error .out_of_bounds_read
  | x :: _, [] => .ok (x : Int)
  | x :: xs, c :: cs =>
    if x = c then strcmp_from xs cs else .ok ((x : Int) - (c : Int))

/-- The call `strcmp(mem + off, lit)`. -/
def strcmp (mem : List Nat) (off : Nat) (lit : List Nat) : Except Fault Int :=
  strcmp_from (mem.drop off) lit

/-! ## The engine (`tftpv_server.c`) -/

/-- The call `c->send_datagram(buf, len, c->send_userdata)`. -/
def send_datagram {σ : Type} (s : State σ) (buf : List Nat) (len : Nat) :
    Except Fault (State σ) :=
  match load_bytes buf len with
  | .ok d => .ok { s with log := s.log ++ [Event.send_datagram d] }
  | .error e => .error e

/-- The function `fill_header`: four stores of the big-endian opcode and argument
(both `uint16_t`). -/
def fill_header (buffer : List Nat) (opcode arg : Nat) : Except Fault (List Nat) := do
  let b ← store buffer 0 ((opcode >>> 8) &&& 0xFF)
  let b ← store b 1 (opcode &&& 0xFF)
  let b ← store b 2 ((arg >>> 8) &&& 0xFF)
  store b 3 (arg &&& 0xFF)

/-- The function `send_ack`: a 4-byte `ack_buffer` with the ACK header is handed
to the transport. -/
def send_ack {σ : Type} (s : State σ) (block_number : Nat) : Except Fault (State σ) := do
  let ack_buffer := List.replicate 4 0
  let ack_buffer ← fill_header ack_buffer TFTPV_OP_ACK (block_number % 65536)
  send_datagram s ack_buffer 4

/-- The function `send_error`: header, message and a NUL are written into the
512-byte `error_buffer`, and `4 + strlen(error_msg) + 1` bytes are sent. -/
def send_error {σ : Type} (s : State σ) (error_code : Nat) (error_msg : List Nat) :
    Except Fault (State σ) := do
  let error_buffer := List.replicate 512 0
  let error_buffer ← fill_header error_buffer TFTPV_OP_ERROR (error_code % 65536)
  let msg_len := error_msg.length
  let error_buffer ← memcpy error_buffer 4 error_msg
  let error_buffer ← store error_buffer (4 + msg_len) 0
  send_datagram s error_buffer (4 + msg_len + 1)

/-- The function `send_data_from_handler`: the header goes into the 512-byte
`data_buffer`, the read callback stores its bytes from `data_buffer + 4` on, and
either the callback's error or the `4 + data_length` bytes are sent. -/
def send_data_from_handler {σ : Type} (s : State σ) (block_number : Nat)
    (reading_file : tftpv_file σ) : Except Fault (State σ) := do
  let data_buffer := List.replicate 512 0
  let data_buffer ← fill_header data_buffer TFTPV_OP_DATA (block_number % 65536)
  match reading_file.read_block with
  | none => .error .null_pointer
  | some read_block =>
    let (data, err, backend) := read_block (block_number % 65536) s.backend
    let s := { s with backend := backend,
                      log := s.log ++ [Event.read_block (block_number % 65536)] }
    let data_buffer ← memcpy data_buffer 4 data
    let data_length := data.length
    if err.code ≠ TFTPV_ERR_UNDEFINED then
      send_error s err.code err.message
    else
      send_datagram s data_buffer (4 + data_length)

/-- The function `check_block_num`. `block_number` and `expected_block_number`
are `uint16_t`; in `block_number != c->expected_block_number - 1` both sides
are promoted to `int`, so the right-hand side is -1 when the expected block is
0. The result is -1 or the block number. -/
def check_block_num {σ : Type} (s : State σ) (buffer : List Nat) :
    Except Fault (Int × State σ) := do
  let b2 ← load buffer 2
  let b3 ← load buffer 3
  let block_number : Nat := ((b2 <<< 8) ||| b3) % 65536
  if block_number ≠ s.ctx.expected_block_number ∧
      (block_number : Int) ≠ (s.ctx.expected_block_number : Int) - 1 then
    let s ← send_error s TFTPV_ERR_ILLEGAL_OPERATION (cstr "Unexpected block number")
    pure (-1, { s with ctx := { s.ctx with current_file := none } })
  else
    let s :=
      if block_number = s.ctx.expected_block_number then
        { s with ctx := { s.ctx with
            expected_block_number := (s.ctx.expected_block_number + 1) % 65536 } }
      else s
    pure ((block_number : Int), s)

/-- The function `tftpv_server_search_file_in_list`: the scan of the array
`files` up to the entry whose `filename` is NULL; `strcmp(...) == 0` is equality
of the two C strings. An array without such an entry is read past its end. -/
def tftpv_server_search_file_in_list {σ : Type} (filename : List Nat) :
    List (tftpv_file σ) → Except Fault (Option (tftpv_file σ))
  | [] => .error .out_of_bounds_read
  | f :: files =>
    match f.filename with
    | none => .ok none
    | some name =>
      if name = filename then .ok (some f)
      else tftpv_server_search_file_in_list filename files

/-- The function `tftpv_server_parse`. `buffer` is the memory the datagram was
received into and `length` the number of bytes received; the result is the
returned `int` and the new state. The `switch` on the opcode is a chain of
tests. The write callback is handed `buffer + 4` and `length - 4`: the bytes it
can read there are the `length - 4` bytes after the header. -/
def tftpv_server_parse {σ : Type} (s : State σ) (buffer : List Nat) (length : Nat) :
    Except Fault (Int × State σ) := do
  if length < 4 then
    let s ← send_error s TFTPV_ERR_ILLEGAL_OPERATION (cstr "Packet too short")
    return (-1, s)
  let b0 ← load buffer 0
  let b1 ← load buffer 1
  let opcode : Nat := ((b0 <<< 8) ||| b1) % 65536
  if opcode = TFTPV_OP_ACK then
    if s.ctx.current_file.isNone ∨ s.ctx.current_operation ≠ TFTPV_OP_RRQ then
      let s ← send_error s TFTPV_ERR_ILLEGAL_OPERATION (cstr "No active read operation")
      return (-1, s)
    let (r, s) ← check_block_num s buffer
    if r < 0 then
      return (-1, s)
    match s.ctx.current_file with
    | none => .error .null_pointer
    | some current_file =>
      let s ← send_data_from_handler s s.ctx.expected_block_number current_file
      return (-1, s)
  else if opcode = TFTPV_OP_RRQ ∨ opcode = TFTPV_OP_WRQ then
    -- filename = buffer + 2, mode = strchr(filename, 0) + 1: neither pointer is NULL
    let filename : Nat := 2
    let filename_len ← strlen buffer filename
    let mode : Nat := filename + filename_len + 1
    let filename_is_null := false
    let mode_is_null := false
    if filename_is_null || mode_is_null then
      let s ← send_error s TFTPV_ERR_ILLEGAL_OPERATION (cstr "Invalid packet")
      return (-1, s)
    let cmp ← strcmp buffer mode (cstr "octet")
    if cmp ≠ 0 then
      let s ← send_error s TFTPV_ERR_ILLEGAL_OPERATION (cstr "Only octet mode is supported")
      return (-1, s)
    let name := (buffer.drop filename).take filename_len
    let (found_file, backend) := s.ctx.search_file name s.backend
    let s := { s with backend := backend, log := s.log ++ [Event.search_file name] }
    match found_file with
    | none =>
      let s ← send_error s TFTPV_ERR_FILE_NOT_FOUND (cstr "File not found")
      return (-1, s)
    | some found_file =>
      let s := { s with ctx := { s.ctx with current_file := some found_file,
                                            expected_block_number := 1 } }
      if opcode = TFTPV_OP_WRQ ∧ found_file.write_block.isSome then
        let s ← send_ack s 0
        let s := { s with ctx := { s.ctx with current_operation := TFTPV_OP_WRQ } }
        return (0, s)
      else if opcode = TFTPV_OP_RRQ ∧ found_file.read_block.isSome then
        let s := { s with ctx := { s.ctx with current_operation := TFTPV_OP_RRQ } }
        let s ← send_data_from_handler s 1 found_file
        return (0, s)
      else
        let s ← send_error s TFTPV_ERR_ILLEGAL_OPERATION
          (cstr "Current operation is unavailable for this file")
        return (-1, s)
  else if opcode = TFTPV_OP_DATA then
    if s.ctx.current_file.isNone ∨ s.ctx.current_operation ≠ TFTPV_OP_WRQ then
      let s ← send_error s TFTPV_ERR_ILLEGAL_OPERATION (cstr "No active write operation")
      return (-1, s)
    let (block_number, s) ← check_block_num s buffer
    if block_number < 0 then
      return (-1, s)
    let data_length := length - 4
    match s.ctx.current_file with
    | none => .error .null_pointer
    | some current_file =>
      match current_file.write_block with
      | none => .error .null_pointer
      | some write_block =>
        let block := (buffer.drop 4).take data_length
        let (err, backend) := write_block block block_number.toNat data_length s.backend
        let s := { s with backend := backend,
                          log := s.log ++ [Event.write_block block block_number.toNat data_length] }
        if err.code ≠ TFTPV_ERR_UNDEFINED then
          let s ← send_error s err.code err.message
          return (-1, s)
        let s ← send_ack s block_number.toNat
        return (-1, s)
  else
    let s ← send_error s TFTPV_ERR_ILLEGAL_OPERATION (cstr "Unsupported operation")
    return (-1, s)

/-- The state after one more datagram went to the transport. -/
def emit {σ : Type} (s : State σ) (d : List Nat) : State σ :=
  { s with log := s.log ++ [Event.send_datagram d] }

/-! ## Example backends and contexts for the closed statements -/

/-- A write-only file (its `read_block` is NULL) whose `write_block` accepts
every block. -/
def write_only_file : tftpv_file Unit :=
  { filename := some (cstr "out.bin"),
    write_block := some (fun _ _ _ u => (⟨TFTPV_ERR_UNDEFINED, []⟩, u)),
    read_block := none,
    userdata := 0 }

/-- A read-only file of ten bytes: block 1 is the whole content, later blocks
are empty. -/
def small_file : tftpv_file Unit :=
  { filename := some (cstr "file1"),
    write_block := none,
    read_block := some (fun block_number u =>
      (if block_number = 1 then cstr "0123456789" else [], ⟨TFTPV_ERR_UNDEFINED, []⟩, u)),
    userdata := 0 }

/-- A read-only file whose `read_block` stores a full block of 512 bytes, as
`fread(block, 1, 512, *fp)` in `read_osfile` does for a file of 512 bytes or
more. -/
def full_block_file : tftpv_file Unit :=
  { filename := some (cstr "big.bin"),
    write_block := none,
    read_block := some (fun _ u => (List.replicate 512 7, ⟨TFTPV_ERR_UNDEFINED, []⟩, u)),
    userdata := 0 }

/-- A file whose backend fails with the errors of `write_osfile` and
`read_osfile`. -/
def failing_file : tftpv_file Unit :=
  { filename := some (cstr "locked"),
    write_block := some (fun _ _ _ u => (⟨TFTPV_ERR_DISK_FULL, cstr "Can't write"⟩, u)),
    read_block := some (fun _ u =>
      ([], ⟨TFTPV_ERR_ACCESS_VIOLATION, cstr "Can't open file"⟩, u)),
    userdata := 0 }

/-- A resolver that knows the four example files. -/
def example_search (filename : List Nat) (u : Unit) : Option (tftpv_file Unit) × Unit :=
  if filename = cstr "out.bin" then (some write_only_file, u)
  else if filename = cstr "file1" then (some small_file, u)
  else if filename = cstr "big.bin" then (some full_block_file, u)
  else if filename = cstr "locked" then (some failing_file, u)
  else (none, u)

/-- A context with no transfer in progress and nothing sent yet. -/
def idle_state : State Unit :=
  { ctx := { search_file := example_search, current_file := none,
             expected_block_number := 0, current_operation := 0 },
    backend := (), log := [] }

/-- A context with a transfer of `file` in progress: operation `op`, expecting
block `e`, nothing sent yet. -/
def transfer_state (file : tftpv_file Unit) (op e : Nat) : State Unit :=
  { ctx := { search_file := example_search, current_file := some file,
             expected_block_number := e, current_operation := op },
    backend := (), log := [] }

/-! ## The caller's loop and the in-memory backend (`src/examples/serve-in-memory.c`) -/

/-- The main loop of the examples: every received datagram (the receive buffer
and the received length) is handed to `tftpv_server_parse`, whose return value
is ignored. -/
def main_loop {σ : Type} (s : State σ) : List (List Nat × Nat) → Except Fault (State σ)
  | [] => .ok s
  | (buffer, length) :: later =>
    match tftpv_server_parse s buffer length with
    | .ok (_, s') => main_loop s' later
    | .error e => .error e

def MAX_FILE_SIZE : Nat := 1024

/-- The modulus of `size_t`, taken to be 64 bits wide. -/
def SIZE_MOD : Nat := 2 ^ 64

/-- The struct `filedata_t`: `buf` is the array of `MAX_FILE_SIZE` bytes. -/
structure filedata where
  buf : List Nat
  size : Nat
  deriving DecidableEq, Repr

/-- The initialisation `size_t offset = (block_number-1)*0x200`: the product is
computed in `int` (`block_number` is a promoted `uint16_t`) and converted to
`size_t`. -/
def block_offset (block_number : Nat) : Nat :=
  ((((block_number : Int) - 1) * 0x200) % (SIZE_MOD : Int)).toNat

/-- The function `write_memfile` on the `filedata_t` behind `userdata`. The result
is what is left in `*err` and the new file; reading `block_length` bytes from
`block` or writing outside `buf` is a fault. -/
def write_memfile (block : List Nat) (block_number block_length : Nat) (f : filedata) :
    Except Fault (tftpv_error × filedata) :=
  let offset := block_offset block_number
  let f := if block_number = 1 then { f with size := 0 } else f
  if (offset + block_length) % SIZE_MOD > MAX_FILE_SIZE then
    .ok (⟨TFTPV_ERR_DISK_FULL, cstr "File larger than1024isn't allowed"⟩, f)
  else
    match load_bytes block block_length with
    | .error e => .error e
    | .ok src =>
      match memcpy f.buf offset src with
      | .error e => .error e
      | .ok buf =>
        .ok (⟨TFTPV_ERR_UNDEFINED, []⟩,
          { buf := buf, size := (f.size + block_length) % SIZE_MOD })

/-- The function `read_memfile` on the `filedata_t` behind `userdata`: the bytes
it copies to `block`, whose number it returns. It never sets `*err`. -/
def read_memfile (block_number : Nat) (f : filedata) : Except Fault (List Nat) :=
  let offset := block_offset block_number
  let size := f.size
  if offset > size then .ok []
  else
    let sendsize :=
      if size < 512 then size
      else if (offset + 512) % SIZE_MOD > size then size - offset
      else 512
    if offset + sendsize ≤ f.buf.length then .ok ((f.buf.drop offset).take sendsize)
    else .error .out_of_bounds_read

/-- The state behind the in-memory callbacks: the array `filebufs`, and the
fault of a callback that ran into undefined behaviour. -/
structure membackend where
  filebufs : List filedata
  fault : Option Fault
  deriving DecidableEq, Repr

/-- The callback `write_memfile` of the file whose `userdata` is `&filebufs[i]`. -/
def memfile_write (i : Nat) (block : List Nat) (block_number block_length : Nat)
    (m : membackend) : tftpv_error × membackend :=
  match m.filebufs[i]? with
  | none => (⟨TFTPV_ERR_UNDEFINED, []⟩, { m with fault := some .null_pointer })
  | some f =>
    match write_memfile block block_number block_length f with
    | .ok (err, f') => (err, { m with filebufs := m.filebufs.set i f' })
    | .error e => (⟨TFTPV_ERR_UNDEFINED, []⟩, { m with fault := some e })

/-- The callback `read_memfile` of the file whose `userdata` is `&filebufs[i]`. -/
def memfile_read (i : Nat) (block_number : Nat) (m : membackend) :
    List Nat × tftpv_error × membackend :=
  match m.filebufs[i]? with
  | none => ([], ⟨TFTPV_ERR_UNDEFINED, []⟩, { m with fault := some .null_pointer })
  | some f =>
    match read_memfile block_number f with
    | .ok data => (data, ⟨TFTPV_ERR_UNDEFINED, []⟩, m)
    | .error e => ([], ⟨TFTPV_ERR_UNDEFINED, []⟩, { m with fault := some e })

/-- An entry `{name, write_memfile, read_memfile, &filebufs[i]}` of the table
`files`. -/
def memfile (name : List Nat) (i : Nat) : tftpv_file membackend :=
  { filename := some name,
    write_block := some (memfile_write i),
    read_block := some (memfile_read i),
    userdata := i }

/-- The entry `{}` that terminates a table of files. -/
def sentinel_file {σ : Type} : tftpv_file σ :=
  { filename := none, write_block := none, read_block := none, userdata := 0 }

/-- The table `files` of the example: "file1", "file2" and the terminator. -/
def files : List (tftpv_file membackend) :=
  [memfile (cstr "file1") 0, memfile (cstr "file2") 1, sentinel_file]

/-- The resolver `tftpv_server_search_file_in_list` with a table as its
`search_userdata`. -/
def search_in_list (table : List (tftpv_file membackend)) (filename : List Nat)
    (m : membackend) : Option (tftpv_file membackend) × membackend :=
  match tftpv_server_search_file_in_list filename table with
  | .ok found => (found, m)
  | .error e => (none, { m with fault := some e })

/-- A file buffer that holds `content` from its start, zero elsewhere. -/
def filedata_of (content : List Nat) : filedata :=
  { buf := content ++ List.replicate (MAX_FILE_SIZE - content.length) 0,
    size := content.length }

/-- The example server right after start: no transfer in progress, the list
resolver over `table`, and the given contents in `filebufs`. -/
def memory_server (table : List (tftpv_file membackend)) (contents : List (List Nat)) :
    State membackend :=
  { ctx := { search_file := search_in_list table, current_file := none,
             expected_block_number := 0, current_operation := 0 },
    backend := { filebufs := contents.map filedata_of, fault := none },
    log := [] }

/-! ## Machine arithmetic and memory lemmas -/

theorem u16_of_bytes (b2 b3 : Nat) (h2 : b2 < 256) (h3 : b3 < 256) :
    ((b2 <<< 8) ||| b3) % 65536 = 256 * b2 + b3 := by
  have h := Nat.mul_add_lt_is_or (i := 8) (b := b3) (by simpa using h3) b2
  rw [Nat.shiftLeft_eq, Nat.mul_comm b2 (2 ^ 8), ← h]
  norm_num
  omega

theorem lo_byte (x : Nat) : x &&& 0xFF = x % 256 := by
  have h := Nat.and_pow_two_sub_one_eq_mod x 8
  simpa using h

theorem hi_byte (x : Nat) : (x >>> 8) &&& 0xFF = x / 256 % 256 := by
  rw [lo_byte, Nat.shiftRight_eq_div_pow]

theorem fill_header_eq (buf : List Nat) (opcode arg : Nat) (h : 4 ≤ buf.length) :
    fill_header buf opcode arg =
      .ok ([opcode / 256 % 256, opcode % 256, arg / 256 % 256, arg % 256] ++ buf.drop 4) := by
  match buf, h with
  | a :: b :: c :: d :: rest, _ =>
    simp [fill_header, store, bind, Except.bind, hi_byte, lo_byte, Nat.shiftRight_eq_div_pow]

theorem take_succ_set_append (pre tail : List Nat) (v : Nat) (h : 0 < tail.length) :
    ((pre ++ tail).set pre.length v).take (pre.length + 1) = pre ++ [v] := by
  match tail, h with
  | t :: ts, _ =>
    rw [List.set_append_right _ _ (Nat.le_refl _)]
    simp [List.take_append]

/-- Sending the first `4 + n` bytes of a buffer that holds a header followed by `n` bytes. -/
theorem send_datagram_header_body {σ : Type} (s : State σ) (hdr body tail : List Nat)
    (h : hdr.length = 4) :
    send_datagram s (hdr ++ body ++ tail) (4 + body.length) = .ok (emit s (hdr ++ body)) := by
  have e : 4 + body.length = (hdr ++ body).length := by simp [h]
  simp only [send_datagram, load_bytes, emit]
  rw [if_pos (by simp [h])]
  rw [e, List.take_left]

theorem send_ack_eq {σ : Type} (s : State σ) (block_number : Nat) :
    send_ack s block_number =
      .ok (emit s [0, 4, block_number % 65536 / 256, block_number % 256]) := by
  have e1 : block_number % 65536 / 256 % 256 = block_number % 65536 / 256 := by omega
  have e2 : block_number % 65536 % 256 = block_number % 256 := by omega
  simp only [send_ack]
  have hlen : (List.replicate 4 0).length = 4 := List.length_replicate 4 0
  generalize List.replicate 4 0 = buf at hlen
  rw [fill_header_eq buf _ _ (by omega)]
  have hd : buf.drop 4 = [] := by rw [← hlen]; exact List.drop_length buf
  have := send_datagram_header_body s [TFTPV_OP_ACK / 256 % 256, TFTPV_OP_ACK % 256,
    block_number % 65536 / 256 % 256, block_number % 65536 % 256] [] [] rfl
  simp only [List.append_nil, List.length_nil, Nat.add_zero] at this
  simp only [bind, Except.bind, hd, List.append_nil, this]
  simp [TFTPV_OP_ACK, e1, e2]

theorem memcpy_after_header (hdr tail src : List Nat) (h : hdr.length = 4)
    (hfit : src.length ≤ tail.length) :
    memcpy (hdr ++ tail) 4 src = .ok (hdr ++ src ++ tail.drop src.length) := by
  simp only [memcpy]
  rw [if_pos (by simp [h]; omega)]
  have e1 : List.take 4 (hdr ++ tail) = hdr := by rw [← h]; exact List.take_left _ _
  have e2 : List.drop (4 + src.length) (hdr ++ tail) = tail.drop src.length := by
    rw [← h]; exact List.drop_append _
  rw [e1, e2]

theorem memcpy_overflow (buf src : List Nat) (off : Nat) (h : buf.length < off + src.length) :
    memcpy buf off src = .error .out_of_bounds_write := by
  simp only [memcpy]
  rw [if_neg (by omega)]

theorem send_error_eq {σ : Type} (s : State σ) (code : Nat) (msg : List Nat)
    (h : msg.length ≤ 507) :
    send_error s code msg =
      .ok (emit s ([0, 5, code / 256 % 256, code % 256] ++ msg ++ [0])) := by
  have e1 : code % 65536 / 256 % 256 = code / 256 % 256 := by omega
  have e2 : code % 65536 % 256 = code % 256 := by omega
  simp only [send_error]
  have hlen : (List.replicate 512 0).length = 512 := List.length_replicate 512 0
  generalize List.replicate 512 0 = buf at hlen
  rw [fill_header_eq buf _ _ (by omega)]
  have hd : (buf.drop 4).length = 508 := by simp [hlen]
  generalize buf.drop 4 = tail at hd
  simp only [bind, Except.bind]
  rw [memcpy_after_header [_, _, _, _] tail msg rfl (by omega)]
  have ht : 0 < (tail.drop msg.length).length := by simp; omega
  generalize tail.drop msg.length = tl at ht
  have hpre : ([TFTPV_OP_ERROR / 256 % 256, TFTPV_OP_ERROR % 256, code % 65536 / 256 % 256,
      code % 65536 % 256] ++ msg).length = 4 + msg.length := by simp; omega
  simp only [store]
  rw [if_pos (by simp; omega)]
  simp only [send_datagram, load_bytes]
  rw [if_pos (by simp; omega)]
  rw [← hpre, take_succ_set_append _ _ _ ht]
  simp [emit, TFTPV_OP_ERROR, e1, e2]

/-! ## The sending helpers on buffers that fit -/

theorem send_data_from_handler_ok {σ : Type} (s : State σ) (block_number : Nat)
    (f : tftpv_file σ) (rb : Nat → σ → List Nat × tftpv_error × σ)
    (data : List Nat) (err : tftpv_error) (backend : σ)
    (hrb : f.read_block = some rb)
    (hcall : rb (block_number % 65536) s.backend = (data, err, backend))
    (hfit : data.length ≤ 508) (herr : err.code = 0) :
    send_data_from_handler s block_number f =
      .ok { ctx := s.ctx, backend := backend,
            log := s.log ++ [Event.read_block (block_number % 65536),
              Event.send_datagram
                ([0, 3, block_number % 65536 / 256, block_number % 256] ++ data)] } := by
  have e1 : block_number % 65536 / 256 % 256 = block_number % 65536 / 256 := by omega
  have e2 : block_number % 65536 % 256 = block_number % 256 := by omega
  simp only [send_data_from_handler]
  have hlen : (List.replicate 512 0).length = 512 := List.length_replicate 512 0
  generalize List.replicate 512 0 = buf at hlen
  rw [fill_header_eq buf _ _ (by omega)]
  have hd : (buf.drop 4).length = 508 := by simp [hlen]
  generalize buf.drop 4 = tail at hd
  simp only [bind, Except.bind, hrb, hcall]
  rw [memcpy_after_header [_, _, _, _] tail data rfl (by omega)]
  simp only [herr, TFTPV_ERR_UNDEFINED, ne_eq, not_true_eq_false, if_false]
  rw [send_datagram_header_body _ [_, _, _, _] data _ rfl]
  simp [emit, TFTPV_OP_DATA, e1, e2]

theorem send_data_from_handler_err {σ : Type} (s : State σ) (block_number : Nat)
    (f : tftpv_file σ) (rb : Nat → σ → List Nat × tftpv_error × σ)
    (data : List Nat) (err : tftpv_error) (backend : σ)
    (hrb : f.read_block = some rb)
    (hcall : rb (block_number % 65536) s.backend = (data, err, backend))
    (hfit : data.length ≤ 508) (herr : err.code ≠ 0) (hmsg : err.message.length ≤ 507) :
    send_data_from_handler s block_number f =
      .ok { ctx := s.ctx, backend := backend,
            log := s.log ++ [Event.read_block (block_number % 65536),
              Event.send_datagram
                ([0, 5, err.code / 256 % 256, err.code % 256] ++ err.message ++ [0])] } := by
  simp only [send_data_from_handler]
  have hlen : (List.replicate 512 0).length = 512 := List.length_replicate 512 0
  generalize List.replicate 512 0 = buf at hlen
  rw [fill_header_eq buf _ _ (by omega)]
  have hd : (buf.drop 4).length = 508 := by simp [hlen]
  generalize buf.drop 4 = tail at hd
  simp only [bind, Except.bind, hrb, hcall]
  rw [memcpy_after_header [_, _, _, _] tail data rfl (by omega)]
  simp only [TFTPV_ERR_UNDEFINED, ne_eq, herr, not_false_eq_true, if_true]
  rw [send_error_eq _ _ _ hmsg]
  simp [emit]

theorem send_data_from_handler_overflow {σ : Type} (s : State σ) (block_number : Nat)
    (f : tftpv_file σ) (rb : Nat → σ → List Nat × tftpv_error × σ)
    (data : List Nat) (err : tftpv_error) (backend : σ)
    (hrb : f.read_block = some rb)
    (hcall : rb (block_number % 65536) s.backend = (data, err, backend))
    (hbig : 508 < data.length) :
    send_data_from_handler s block_number f = .error .out_of_bounds_write := by
  simp only [send_data_from_handler]
  have hlen : (List.replicate 512 0).length = 512 := List.length_replicate 512 0
  generalize List.replicate 512 0 = buf at hlen
  rw [fill_header_eq buf _ _ (by omega)]
  simp only [bind, Except.bind, hrb, hcall]
  rw [memcpy_overflow _ _ _ (by simp; omega)]

/-! ## Block-number sequencing -/

theorem check_block_num_reject {σ : Type} (s : State σ) (a0 a1 b2 b3 : Nat) (rest : List Nat)
    (h2 : b2 < 256) (h3 : b3 < 256)
    (hne : 256 * b2 + b3 ≠ s.ctx.expected_block_number)
    (hdup : 256 * b2 + b3 + 1 ≠ s.ctx.expected_block_number) :
    check_block_num s (a0 :: a1 :: b2 :: b3 :: rest) =
      .ok (-1, { ctx := { s.ctx with current_file := none }, backend := s.backend,
                 log := s.log ++ [Event.send_datagram
                   ([0, 5, 0, 4] ++ cstr "Unexpected block number" ++ [0])] }) := by
  have hcond : (256 * b2 + b3 ≠ s.ctx.expected_block_number ∧
      ((256 * b2 + b3 : Nat) : Int) ≠ (s.ctx.expected_block_number : Int) - 1) :=
    ⟨hne, by omega⟩
  simp only [check_block_num, load, List.getElem?_cons_succ, List.getElem?_cons_zero,
    bind, Except.bind, u16_of_bytes b2 b3 h2 h3]
  rw [if_pos hcond, send_error_eq _ _ _ (by decide)]
  simp [emit, TFTPV_ERR_ILLEGAL_OPERATION, pure, Except.pure]

theorem check_block_num_expected {σ : Type} (s : State σ) (a0 a1 b2 b3 : Nat) (rest : List Nat)
    (h2 : b2 < 256) (h3 : b3 < 256)
    (heq : 256 * b2 + b3 = s.ctx.expected_block_number) :
    check_block_num s (a0 :: a1 :: b2 :: b3 :: rest) =
      .ok ((s.ctx.expected_block_number : Int),
        { s with ctx := { s.ctx with
            expected_block_number := (s.ctx.expected_block_number + 1) % 65536 } }) := by
  simp only [check_block_num, load, List.getElem?_cons_succ, List.getElem?_cons_zero,
    bind, Except.bind, u16_of_bytes b2 b3 h2 h3]
  rw [if_neg (by intro h; exact h.1 heq)]
  simp [heq, pure, Except.pure]

theorem check_block_num_duplicate {σ : Type} (s : State σ) (a0 a1 b2 b3 : Nat)
    (rest : List Nat) (h2 : b2 < 256) (h3 : b3 < 256)
    (hdup : 256 * b2 + b3 + 1 = s.ctx.expected_block_number) :
    check_block_num s (a0 :: a1 :: b2 :: b3 :: rest) =
      .ok (((256 * b2 + b3 : Nat) : Int), s) := by
  simp only [check_block_num, load, List.getElem?_cons_succ, List.getElem?_cons_zero,
    bind, Except.bind, u16_of_bytes b2 b3 h2 h3]
  rw [if_neg (by intro h; exact h.2 (by omega))]
  have hne : 256 * b2 + b3 ≠ s.ctx.expected_block_number := by omega
  simp [hne, pure, Except.pure]

/-! ## C strings in the received buffer -/

theorem strlen_from_terminated (name rest : List Nat) (h : 0 ∉ name) :
    strlen_from (name ++ 0 :: rest) = .ok name.length := by
  induction name with
  | nil => simp [strlen_from]
  | cons x xs ih =>
    have hx : x ≠ 0 := fun e => h (by simp [e])
    have hxs : 0 ∉ xs := fun e => h (List.mem_cons_of_mem _ e)
    simp [strlen_from, hx, ih hxs]

theorem strcmp_from_same (lit rest : List Nat) :
    strcmp_from (lit ++ 0 :: rest) lit = .ok 0 := by
  induction lit with
  | nil => simp [strcmp_from]
  | cons c cs ih => simp [strcmp_from, ih]

theorem strcmp_from_differs (mode lit rest : List Nat) (h0 : 0 ∉ mode) (hl : 0 ∉ lit)
    (hne : mode ≠ lit) :
    ∃ d : Int, d ≠ 0 ∧ strcmp_from (mode ++ 0 :: rest) lit = .ok d := by
  induction mode generalizing lit with
  | nil =>
    match lit, hl, hne with
    | c :: cs, hl, _ =>
      have hc : c ≠ 0 := fun e => hl (by simp [e])
      refine ⟨(0 : Int) - (c : Int), by omega, ?_⟩
      simp [strcmp_from, Ne.symm hc]
  | cons x xs ih =>
    have hx : x ≠ 0 := fun e => h0 (by simp [e])
    have hxs : 0 ∉ xs := fun e => h0 (List.mem_cons_of_mem _ e)
    match lit, hl, hne with
    | [], _, _ => exact ⟨(x : Int), by omega, by simp [strcmp_from]⟩
    | c :: cs, hl, hne =>
      have hcs : 0 ∉ cs := fun e => hl (List.mem_cons_of_mem _ e)
      by_cases hxc : x = c
      · have hne2 : xs ≠ cs := fun e => hne (by rw [hxc, e])
        obtain ⟨d, hd, hcmp⟩ := ih cs hxs hcs hne2
        exact ⟨d, hd, by simp [strcmp_from, hxc, hcmp]⟩
      · exact ⟨(x : Int) - (c : Int), by omega, by simp [strcmp_from, hxc]⟩

/-- The filename of a request buffer `0 :: opcode :: (name ++ 0 :: tail)` is `name`. -/
theorem strlen_request (op : Nat) (name tail : List Nat) (h : 0 ∉ name) :
    strlen (0 :: op :: (name ++ 0 :: tail)) 2 = .ok name.length := by
  simp [strlen, strlen_from_terminated name tail h]

/-- The mode of a request buffer starts right after the NUL of the filename. -/
theorem strcmp_request (op : Nat) (name tail lit : List Nat) :
    strcmp (0 :: op :: (name ++ 0 :: tail)) (2 + name.length + 1) lit =
      strcmp_from tail lit := by
  have e : List.drop (2 + name.length + 1) (0 :: op :: (name ++ 0 :: tail)) = tail := by
    have : 2 + name.length + 1 = (0 :: op :: (name ++ [0])).length := by simp; omega
    rw [this]
    have e2 : 0 :: op :: (name ++ 0 :: tail) = (0 :: op :: (name ++ [0])) ++ tail := by simp
    rw [e2, List.drop_left]
  simp [strcmp, e]

theorem take_name_request (op : Nat) (name tail : List Nat) :
    List.take name.length (List.drop 2 (0 :: op :: (name ++ 0 :: tail))) = name := by
  simp

/-- The opcode of a datagram whose first byte is 0 is its second byte. -/
theorem opcode_of_bytes (op : Nat) (h : op < 256) : ((0 <<< 8) ||| op) % 65536 = op := by
  have := u16_of_bytes 0 op (by omega) h
  simpa using this

/-! ## ACK and DATA: what the engine does with an accepted block -/

/-- The value of `expected_block_number` after `check_block_num` accepted block `b`. -/
theorem next_expected_lt (e b : Nat) (he : e < 65536) :
    (if b = e then (e + 1) % 65536 else e) < 65536 := by
  split <;> omega

theorem parse_data_accepted {σ : Type} (s : State σ) (f : tftpv_file σ)
    (wb : List Nat → Nat → Nat → σ → tftpv_error × σ)
    (b2 b3 : Nat) (rest : List Nat) (length : Nat) (err : tftpv_error) (backend : σ)
    (hfile : s.ctx.current_file = some f) (hop : s.ctx.current_operation = 2)
    (hwb : f.write_block = some wb) (hlen : 4 ≤ length) (h2 : b2 < 256) (h3 : b3 < 256)
    (hacc : 256 * b2 + b3 = s.ctx.expected_block_number ∨
      256 * b2 + b3 + 1 = s.ctx.expected_block_number)
    (hcall : wb (rest.take (length - 4)) (256 * b2 + b3) (length - 4) s.backend = (err, backend))
    (herr : err.code = 0) :
    tftpv_server_parse s (0 :: 3 :: b2 :: b3 :: rest) length =
      .ok (-1, { ctx := { s.ctx with expected_block_number :=
                   if 256 * b2 + b3 = s.ctx.expected_block_number
                   then (s.ctx.expected_block_number + 1) % 65536
                   else s.ctx.expected_block_number },
                 backend := backend,
                 log := s.log ++ [Event.write_block (rest.take (length - 4)) (256 * b2 + b3)
                   (length - 4), Event.send_datagram [0, 4, b2, b3]] }) := by
  have hack : (3 : Nat) ≠ TFTPV_OP_ACK := by simp only [TFTPV_OP_ACK]; omega
  have hreq : ¬ ((3 : Nat) = TFTPV_OP_RRQ ∨ (3 : Nat) = TFTPV_OP_WRQ) := by
    simp only [TFTPV_OP_RRQ, TFTPV_OP_WRQ]; omega
  have hdata : (3 : Nat) = TFTPV_OP_DATA := rfl
  have hstate : ¬ (s.ctx.current_file.isNone = true ∨ s.ctx.current_operation ≠ TFTPV_OP_WRQ) := by
    simp [hfile, hop, TFTPV_OP_WRQ]
  have e1 : (256 * b2 + b3) % 65536 / 256 = b2 := by omega
  have e2 : (256 * b2 + b3) % 256 = b3 := by omega
  unfold tftpv_server_parse
  simp only [load, List.getElem?_cons_succ, List.getElem?_cons_zero, bind, Except.bind,
    opcode_of_bytes 3 (by omega), if_neg (Nat.not_lt.mpr hlen), pure, Except.pure,
    if_neg hack, if_neg hreq, if_pos hdata, if_neg hstate]
  rcases hacc with hacc | hacc
  · rw [check_block_num_expected s 0 3 b2 b3 rest h2 h3 hacc]
    have hnn : ¬ ((s.ctx.expected_block_number : Int) < 0) := by omega
    simp only [if_neg hnn, hfile, hwb, Int.toNat_ofNat, List.drop_succ_cons, List.drop_zero,
      ← hacc, hcall, herr, TFTPV_ERR_UNDEFINED, ne_eq, not_true_eq_false, if_false,
      send_ack_eq, e1, e2, emit, if_true]
    rw [if_neg (by omega)]
    simp
  · rw [check_block_num_duplicate s 0 3 b2 b3 rest h2 h3 hacc]
    have hnn : ¬ (((256 * b2 + b3 : Nat) : Int) < 0) := by omega
    have hne : 256 * b2 + b3 ≠ s.ctx.expected_block_number := by omega
    simp only [if_neg hnn, hfile, hwb, Int.toNat_ofNat, List.drop_succ_cons, List.drop_zero,
      hcall, herr, TFTPV_ERR_UNDEFINED, ne_eq, not_true_eq_false, if_false,
      send_ack_eq, e1, e2, emit, if_neg hne]
    simp [← hfile]

theorem parse_data_backend_error {σ : Type} (s : State σ) (f : tftpv_file σ)
    (wb : List Nat → Nat → Nat → σ → tftpv_error × σ)
    (b2 b3 : Nat) (rest : List Nat) (length : Nat) (err : tftpv_error) (backend : σ)
    (hfile : s.ctx.current_file = some f) (hop : s.ctx.current_operation = 2)
    (hwb : f.write_block = some wb) (hlen : 4 ≤ length) (h2 : b2 < 256) (h3 : b3 < 256)
    (hacc : 256 * b2 + b3 = s.ctx.expected_block_number ∨
      256 * b2 + b3 + 1 = s.ctx.expected_block_number)
    (hcall : wb (rest.take (length - 4)) (256 * b2 + b3) (length - 4) s.backend = (err, backend))
    (herr : err.code ≠ 0) (hmsg : err.message.length ≤ 507) :
    tftpv_server_parse s (0 :: 3 :: b2 :: b3 :: rest) length =
      .ok (-1, { ctx := { s.ctx with expected_block_number :=
                   if 256 * b2 + b3 = s.ctx.expected_block_number
                   then (s.ctx.expected_block_number + 1) % 65536
                   else s.ctx.expected_block_number },
                 backend := backend,
                 log := s.log ++ [Event.write_block (rest.take (length - 4)) (256 * b2 + b3)
                   (length - 4), Event.send_datagram
                     ([0, 5, err.code / 256 % 256, err.code % 256] ++ err.message ++ [0])] }) := by
  have hack : (3 : Nat) ≠ TFTPV_OP_ACK := by simp only [TFTPV_OP_ACK]; omega
  have hreq : ¬ ((3 : Nat) = TFTPV_OP_RRQ ∨ (3 : Nat) = TFTPV_OP_WRQ) := by
    simp only [TFTPV_OP_RRQ, TFTPV_OP_WRQ]; omega
  have hdata : (3 : Nat) = TFTPV_OP_DATA := rfl
  have hstate : ¬ (s.ctx.current_file.isNone = true ∨ s.ctx.current_operation ≠ TFTPV_OP_WRQ) := by
    simp [hfile, hop, TFTPV_OP_WRQ]
  unfold tftpv_server_parse
  simp only [load, List.getElem?_cons_succ, List.getElem?_cons_zero, bind, Except.bind,
    opcode_of_bytes 3 (by omega), if_neg (Nat.not_lt.mpr hlen), pure, Except.pure,
    if_neg hack, if_neg hreq, if_pos hdata, if_neg hstate]
  rcases hacc with hacc | hacc
  · rw [check_block_num_expected s 0 3 b2 b3 rest h2 h3 hacc]
    simp only [hfile, hwb, Int.toNat_ofNat, List.drop_succ_cons, List.drop_zero,
      ← hacc, hcall, herr, TFTPV_ERR_UNDEFINED, ne_eq, not_false_eq_true, if_true,
      send_error_eq _ _ _ hmsg, emit]
    rw [if_neg (by omega)]
    simp
  · rw [check_block_num_duplicate s 0 3 b2 b3 rest h2 h3 hacc]
    have hnn : ¬ (((256 * b2 + b3 : Nat) : Int) < 0) := by omega
    have hne : 256 * b2 + b3 ≠ s.ctx.expected_block_number := by omega
    simp only [if_neg hnn, hfile, hwb, Int.toNat_ofNat, List.drop_succ_cons, List.drop_zero,
      hcall, herr, TFTPV_ERR_UNDEFINED, ne_eq, not_false_eq_true, if_true,
      send_error_eq _ _ _ hmsg, emit, if_neg hne]
    simp [← hfile]

theorem parse_ack_accepted {σ : Type} (s : State σ) (f : tftpv_file σ)
    (rb : Nat → σ → List Nat × tftpv_error × σ)
    (b2 b3 : Nat) (rest : List Nat) (length : Nat) (data : List Nat) (err : tftpv_error)
    (backend : σ) (next : Nat)
    (hfile : s.ctx.current_file = some f) (hop : s.ctx.current_operation = 1)
    (hrb : f.read_block = some rb) (hlen : 4 ≤ length) (h2 : b2 < 256) (h3 : b3 < 256)
    (he : s.ctx.expected_block_number < 65536)
    (hacc : 256 * b2 + b3 = s.ctx.expected_block_number ∨
      256 * b2 + b3 + 1 = s.ctx.expected_block_number)
    (hnext : next = if 256 * b2 + b3 = s.ctx.expected_block_number
                   then (s.ctx.expected_block_number + 1) % 65536
                   else s.ctx.expected_block_number)
    (hcall : rb next s.backend = (data, err, backend))
    (hfit : data.length ≤ 508) (herr : err.code = 0) :
    tftpv_server_parse s (0 :: 4 :: b2 :: b3 :: rest) length =
      .ok (-1, { ctx := { s.ctx with expected_block_number := next },
                 backend := backend,
                 log := s.log ++ [Event.read_block next, Event.send_datagram
                   ([0, 3, next / 256, next % 256] ++ data)] }) := by
  have hack : (4 : Nat) = TFTPV_OP_ACK := rfl
  have hstate : ¬ (s.ctx.current_file.isNone = true ∨ s.ctx.current_operation ≠ TFTPV_OP_RRQ) := by
    simp [hfile, hop, TFTPV_OP_RRQ]
  have hlt : next < 65536 := by rw [hnext]; exact next_expected_lt _ _ he
  have hmod : next % 65536 = next := Nat.mod_eq_of_lt hlt
  unfold tftpv_server_parse
  simp only [load, List.getElem?_cons_succ, List.getElem?_cons_zero, bind, Except.bind,
    opcode_of_bytes 4 (by omega), if_neg (Nat.not_lt.mpr hlen), pure, Except.pure,
    if_pos hack, if_neg hstate]
  rcases hacc with hacc | hacc
  · rw [check_block_num_expected s 0 4 b2 b3 rest h2 h3 hacc]
    have hnn : ¬ ((s.ctx.expected_block_number : Int) < 0) := by omega
    rw [if_pos hacc] at hnext
    simp only [if_neg hnn, hfile, ← hnext]
    rw [send_data_from_handler_ok _ next f rb data err backend hrb (by rw [hmod]; exact hcall)
      hfit herr]
    simp [hmod]
  · rw [check_block_num_duplicate s 0 4 b2 b3 rest h2 h3 hacc]
    have hnn : ¬ (((256 * b2 + b3 : Nat) : Int) < 0) := by omega
    have hne : 256 * b2 + b3 ≠ s.ctx.expected_block_number := by omega
    rw [if_neg hne] at hnext
    simp only [if_neg hnn, hfile, ← hnext]
    rw [send_data_from_handler_ok _ next f rb data err backend hrb (by rw [hmod]; exact hcall)
      hfit herr]
    simp [hnext, ← hfile, he, Nat.mod_eq_of_lt he]

theorem parse_ack_backend_error {σ : Type} (s : State σ) (f : tftpv_file σ)
    (rb : Nat → σ → List Nat × tftpv_error × σ)
    (b2 b3 : Nat) (rest : List Nat) (length : Nat) (data : List Nat) (err : tftpv_error)
    (backend : σ) (next : Nat)
    (hfile : s.ctx.current_file = some f) (hop : s.ctx.current_operation = 1)
    (hrb : f.read_block = some rb) (hlen : 4 ≤ length) (h2 : b2 < 256) (h3 : b3 < 256)
    (he : s.ctx.expected_block_number < 65536)
    (hacc : 256 * b2 + b3 = s.ctx.expected_block_number ∨
      256 * b2 + b3 + 1 = s.ctx.expected_block_number)
    (hnext : next = if 256 * b2 + b3 = s.ctx.expected_block_number
                   then (s.ctx.expected_block_number + 1) % 65536
                   else s.ctx.expected_block_number)
    (hcall : rb next s.backend = (data, err, backend))
    (hfit : data.length ≤ 508) (herr : err.code ≠ 0) (hmsg : err.message.length ≤ 507) :
    tftpv_server_parse s (0 :: 4 :: b2 :: b3 :: rest) length =
      .ok (-1, { ctx := { s.ctx with expected_block_number := next },
                 backend := backend,
                 log := s.log ++ [Event.read_block next, Event.send_datagram
                   ([0, 5, err.code / 256 % 256, err.code % 256] ++ err.message ++ [0])] }) := by
  have hack : (4 : Nat) = TFTPV_OP_ACK := rfl
  have hstate : ¬ (s.ctx.current_file.isNone = true ∨ s.ctx.current_operation ≠ TFTPV_OP_RRQ) := by
    simp [hfile, hop, TFTPV_OP_RRQ]
  have hlt : next < 65536 := by rw [hnext]; exact next_expected_lt _ _ he
  have hmod : next % 65536 = next := Nat.mod_eq_of_lt hlt
  unfold tftpv_server_parse
  simp only [load, List.getElem?_cons_succ, List.getElem?_cons_zero, bind, Except.bind,
    opcode_of_bytes 4 (by omega), if_neg (Nat.not_lt.mpr hlen), pure, Except.pure,
    if_pos hack, if_neg hstate]
  rcases hacc with hacc | hacc
  · rw [check_block_num_expected s 0 4 b2 b3 rest h2 h3 hacc]
    have hnn : ¬ ((s.ctx.expected_block_number : Int) < 0) := by omega
    rw [if_pos hacc] at hnext
    simp only [if_neg hnn, hfile, ← hnext]
    rw [send_data_from_handler_err _ next f rb data err backend hrb (by rw [hmod]; exact hcall)
      hfit herr hmsg]
    simp [hmod]
  · rw [check_block_num_duplicate s 0 4 b2 b3 rest h2 h3 hacc]
    have hnn : ¬ (((256 * b2 + b3 : Nat) : Int) < 0) := by omega
    have hne : 256 * b2 + b3 ≠ s.ctx.expected_block_number := by omega
    rw [if_neg hne] at hnext
    simp only [if_neg hnn, hfile, ← hnext]
    rw [send_data_from_handler_err _ next f rb data err backend hrb (by rw [hmod]; exact hcall)
      hfit herr hmsg]
    simp [hnext, ← hfile, he, Nat.mod_eq_of_lt he]

/-- An ACK in READING, or a DATA in WRITING, whose block `b` is not the expected
one and whose successor `b + 1` is not either, is answered by ERROR 4 and ends
the transfer. -/
theorem parse_block_rejected {σ : Type} (s : State σ) (f : tftpv_file σ)
    (op b2 b3 : Nat) (rest : List Nat) (length : Nat)
    (hlen : 4 ≤ length) (h2 : b2 < 256) (h3 : b3 < 256)
    (hfile : s.ctx.current_file = some f)
    (hstate : (op = TFTPV_OP_ACK ∧ s.ctx.current_operation = TFTPV_OP_RRQ) ∨
      (op = TFTPV_OP_DATA ∧ s.ctx.current_operation = TFTPV_OP_WRQ))
    (hne : 256 * b2 + b3 ≠ s.ctx.expected_block_number)
    (hdup' : 256 * b2 + b3 + 1 ≠ s.ctx.expected_block_number) :
    tftpv_server_parse s (0 :: op :: b2 :: b3 :: rest) length =
      .ok (-1, { ctx := { s.ctx with current_file := none },
                 backend := s.backend,
                 log := s.log ++ [Event.send_datagram
                   ([0, 5, 0, 4] ++ cstr "Unexpected block number" ++ [0])] }) := by
  rcases hstate with ⟨hop, hcur⟩ | ⟨hop, hcur⟩
  · subst hop
    have hguard : ¬ (s.ctx.current_file.isNone = true ∨
        s.ctx.current_operation ≠ TFTPV_OP_RRQ) := by simp [hfile, hcur]
    unfold tftpv_server_parse
    simp only [load, List.getElem?_cons_succ, List.getElem?_cons_zero, bind, Except.bind,
      opcode_of_bytes TFTPV_OP_ACK (by decide), if_neg (Nat.not_lt.mpr hlen), pure,
      Except.pure, if_true, if_neg hguard,
      check_block_num_reject s 0 TFTPV_OP_ACK b2 b3 rest h2 h3 hne hdup']
    simp
  · subst hop
    have hguard : ¬ (s.ctx.current_file.isNone = true ∨
        s.ctx.current_operation ≠ TFTPV_OP_WRQ) := by simp [hfile, hcur]
    have hack : TFTPV_OP_DATA ≠ TFTPV_OP_ACK := by decide
    have hreq : ¬ (TFTPV_OP_DATA = TFTPV_OP_RRQ ∨ TFTPV_OP_DATA = TFTPV_OP_WRQ) := by decide
    unfold tftpv_server_parse
    simp only [load, List.getElem?_cons_succ, List.getElem?_cons_zero, bind, Except.bind,
      opcode_of_bytes TFTPV_OP_DATA (by decide), if_neg (Nat.not_lt.mpr hlen), pure,
      Except.pure, if_true, if_neg hguard, if_neg hack, if_neg hreq,
      check_block_num_reject s 0 TFTPV_OP_DATA b2 b3 rest h2 h3 hne hdup']
    simp

/-! ## RRQ and WRQ -/

/-- An octet-mode RRQ for a readable file whose first block fits the 508 bytes
that `data_buffer` has after the header: DATA block 1 is sent and the context
is in READING with block 1 expected. -/
theorem parse_rrq_first_block {σ : Type} (s : State σ) (name rest : List Nat) (length : Nat)
    (f : tftpv_file σ) (rb : Nat → σ → List Nat × tftpv_error × σ)
    (data : List Nat) (err : tftpv_error) (backend backend' : σ)
    (hlen : 4 ≤ length) (hname : 0 ∉ name)
    (hsearch : s.ctx.search_file name s.backend = (some f, backend))
    (hrb : f.read_block = some rb)
    (hcall : rb 1 backend = (data, err, backend'))
    (hfit : data.length ≤ 508) (herr : err.code = 0) :
    tftpv_server_parse s (0 :: 1 :: (name ++ 0 :: (cstr "octet" ++ 0 :: rest))) length =
      .ok (0, { ctx := { s.ctx with current_file := some f, expected_block_number := 1,
                                    current_operation := 1 },
                backend := backend',
                log := s.log ++ [Event.search_file name, Event.read_block 1,
                  Event.send_datagram ([0, 3, 0, 1] ++ data)] }) := by
  have hack : (1 : Nat) ≠ TFTPV_OP_ACK := by decide
  have hreq : (1 : Nat) = TFTPV_OP_RRQ ∨ (1 : Nat) = TFTPV_OP_WRQ := Or.inl rfl
  have hnw : ¬ ((1 : Nat) = TFTPV_OP_WRQ ∧ f.write_block.isSome = true) := by
    intro h; exact absurd h.1 (by decide)
  have hr : (1 : Nat) = TFTPV_OP_RRQ ∧ f.read_block.isSome = true := ⟨rfl, by simp [hrb]⟩
  unfold tftpv_server_parse
  simp only [load, List.getElem?_cons_succ, List.getElem?_cons_zero, bind, Except.bind,
    opcode_of_bytes 1 (by omega), strlen_request 1 name _ hname, strcmp_request,
    strcmp_from_same, take_name_request, hsearch,
    if_neg (Nat.not_lt.mpr hlen), pure, Except.pure, if_neg hack, if_pos hreq,
    if_neg hnw, if_pos hr]
  rw [send_data_from_handler_ok _ 1 f rb data err backend' hrb hcall hfit herr]
  simp [TFTPV_OP_RRQ]

/-- An octet-mode RRQ for a readable file whose read callback stores more than
508 bytes: the bytes run past the end of the 512-byte `data_buffer`. -/
theorem parse_rrq_overflow {σ : Type} (s : State σ) (name rest : List Nat) (length : Nat)
    (f : tftpv_file σ) (rb : Nat → σ → List Nat × tftpv_error × σ)
    (data : List Nat) (err : tftpv_error) (backend backend' : σ)
    (hlen : 4 ≤ length) (hname : 0 ∉ name)
    (hsearch : s.ctx.search_file name s.backend = (some f, backend))
    (hrb : f.read_block = some rb)
    (hcall : rb 1 backend = (data, err, backend'))
    (hbig : 508 < data.length) :
    tftpv_server_parse s (0 :: 1 :: (name ++ 0 :: (cstr "octet" ++ 0 :: rest))) length =
      .error .out_of_bounds_write := by
  have hack : (1 : Nat) ≠ TFTPV_OP_ACK := by decide
  have hreq : (1 : Nat) = TFTPV_OP_RRQ ∨ (1 : Nat) = TFTPV_OP_WRQ := Or.inl rfl
  have hnw : ¬ ((1 : Nat) = TFTPV_OP_WRQ ∧ f.write_block.isSome = true) := by
    intro h; exact absurd h.1 (by decide)
  have hr : (1 : Nat) = TFTPV_OP_RRQ ∧ f.read_block.isSome = true := ⟨rfl, by simp [hrb]⟩
  unfold tftpv_server_parse
  simp only [load, List.getElem?_cons_succ, List.getElem?_cons_zero, bind, Except.bind,
    opcode_of_bytes 1 (by omega), strlen_request 1 name _ hname, strcmp_request,
    strcmp_from_same, take_name_request, hsearch,
    if_neg (Nat.not_lt.mpr hlen), pure, Except.pure, if_neg hack, if_pos hreq,
    if_neg hnw, if_pos hr]
  rw [send_data_from_handler_overflow _ 1 f rb data err backend' hrb hcall hbig]
  simp

/-- An octet-mode RRQ (WRQ) for a file without `read_block` (`write_block`):
ERROR 4 is sent and -1 returned, but `current_file` and
`expected_block_number` have already been overwritten. -/
theorem parse_request_without_capability {σ : Type} (s : State σ) (op : Nat)
    (name rest : List Nat) (length : Nat) (f : tftpv_file σ) (backend : σ)
    (hlen : 4 ≤ length) (hname : 0 ∉ name)
    (hsearch : s.ctx.search_file name s.backend = (some f, backend))
    (hcap : (op = 1 ∧ f.read_block = none) ∨ (op = 2 ∧ f.write_block = none)) :
    tftpv_server_parse s (0 :: op :: (name ++ 0 :: (cstr "octet" ++ 0 :: rest))) length =
      .ok (-1, { ctx := { s.ctx with current_file := some f, expected_block_number := 1 },
                 backend := backend,
                 log := s.log ++ [Event.search_file name, Event.send_datagram
                   ([0, 5, 0, 4] ++ cstr "Current operation is unavailable for this file"
                     ++ [0])] }) := by
  have hack : op ≠ TFTPV_OP_ACK := by simp only [TFTPV_OP_ACK]; omega
  have hreq : op = TFTPV_OP_RRQ ∨ op = TFTPV_OP_WRQ := by
    simp only [TFTPV_OP_RRQ, TFTPV_OP_WRQ]; omega
  have hnw : ¬ (op = TFTPV_OP_WRQ ∧ f.write_block.isSome = true) := by
    rintro ⟨h1, h2⟩
    rcases hcap with ⟨h, _⟩ | ⟨_, h⟩
    · simp only [TFTPV_OP_WRQ] at h1; omega
    · simp [h] at h2
  have hnr : ¬ (op = TFTPV_OP_RRQ ∧ f.read_block.isSome = true) := by
    rintro ⟨h1, h2⟩
    rcases hcap with ⟨_, h⟩ | ⟨h, _⟩
    · simp [h] at h2
    · simp only [TFTPV_OP_RRQ] at h1; omega
  unfold tftpv_server_parse
  simp only [load, List.getElem?_cons_succ, List.getElem?_cons_zero, bind, Except.bind,
    opcode_of_bytes op (by omega), strlen_request op name _ hname, strcmp_request,
    strcmp_from_same, take_name_request, hsearch,
    if_neg (Nat.not_lt.mpr hlen), pure, Except.pure, if_neg hack, if_pos hreq,
    if_neg hnw, if_neg hnr,
    send_error_eq _ _ _
      (show (cstr "Current operation is unavailable for this file").length ≤ 507 by decide)]
  simp [emit, TFTPV_ERR_ILLEGAL_OPERATION]

/-! ## Duplicates away from the wrap -/

/-- Away from the wrap (the accepted block is not 65535), a DATA datagram fed a
second time is acknowledged again with the same ACK and the context stays as
it was after the first call, provided the write callback succeeds again. -/
theorem duplicate_data_reacknowledged {σ : Type} (s : State σ) (f : tftpv_file σ)
    (wb : List Nat → Nat → Nat → σ → tftpv_error × σ)
    (b2 b3 : Nat) (rest : List Nat) (length : Nat) (err1 err2 : tftpv_error)
    (backend1 backend2 : σ)
    (hfile : s.ctx.current_file = some f) (hop : s.ctx.current_operation = 2)
    (hwb : f.write_block = some wb) (hlen : 4 ≤ length) (h2 : b2 < 256) (h3 : b3 < 256)
    (hexp : 256 * b2 + b3 = s.ctx.expected_block_number)
    (hwrap : 256 * b2 + b3 ≠ 65535)
    (hcall1 : wb (rest.take (length - 4)) (256 * b2 + b3) (length - 4) s.backend =
      (err1, backend1))
    (herr1 : err1.code = 0)
    (hcall2 : wb (rest.take (length - 4)) (256 * b2 + b3) (length - 4) backend1 =
      (err2, backend2))
    (herr2 : err2.code = 0) :
    ∃ s1 s2, tftpv_server_parse s (0 :: 3 :: b2 :: b3 :: rest) length = .ok (-1, s1) ∧
      tftpv_server_parse s1 (0 :: 3 :: b2 :: b3 :: rest) length = .ok (-1, s2) ∧
      s2.ctx = s1.ctx ∧
      s1.log = s.log ++ [Event.write_block (rest.take (length - 4)) (256 * b2 + b3)
        (length - 4), Event.send_datagram [0, 4, b2, b3]] ∧
      s2.log = s1.log ++ [Event.write_block (rest.take (length - 4)) (256 * b2 + b3)
        (length - 4), Event.send_datagram [0, 4, b2, b3]] := by
  have hstep1 := parse_data_accepted s f wb b2 b3 rest length err1 backend1 hfile hop hwb
    hlen h2 h3 (Or.inl hexp) hcall1 herr1
  rw [if_pos hexp] at hstep1
  have hnext : (s.ctx.expected_block_number + 1) % 65536 = 256 * b2 + b3 + 1 := by
    rw [← hexp]; omega
  have hne : 256 * b2 + b3 ≠ (s.ctx.expected_block_number + 1) % 65536 := by
    rw [hnext]; omega
  have hstep2 := parse_data_accepted
    { ctx := { s.ctx with expected_block_number := (s.ctx.expected_block_number + 1) % 65536 },
      backend := backend1,
      log := s.log ++ [Event.write_block (rest.take (length - 4)) (256 * b2 + b3)
        (length - 4), Event.send_datagram [0, 4, b2, b3]] }
    f wb b2 b3 rest length err2 backend2 hfile hop hwb
    hlen h2 h3 (Or.inr hnext.symm) hcall2 herr2
  exact ⟨_, _, hstep1, hstep2, by simp [hne], rfl, rfl⟩

/-- Away from the wrap, an ACK fed a second time makes the engine send the same
DATA block again and the context stays as it was after the first call, provided
the read callback returns the same block again. -/
theorem duplicate_ack_resends_data {σ : Type} (s : State σ) (f : tftpv_file σ)
    (rb : Nat → σ → List Nat × tftpv_error × σ)
    (b2 b3 : Nat) (rest : List Nat) (length : Nat) (data : List Nat)
    (err1 err2 : tftpv_error) (backend1 backend2 : σ)
    (hfile : s.ctx.current_file = some f) (hop : s.ctx.current_operation = 1)
    (hrb : f.read_block = some rb) (hlen : 4 ≤ length) (h2 : b2 < 256) (h3 : b3 < 256)
    (hexp : 256 * b2 + b3 = s.ctx.expected_block_number)
    (hwrap : 256 * b2 + b3 ≠ 65535)
    (hcall1 : rb (256 * b2 + b3 + 1) s.backend = (data, err1, backend1))
    (herr1 : err1.code = 0)
    (hcall2 : rb (256 * b2 + b3 + 1) backend1 = (data, err2, backend2))
    (herr2 : err2.code = 0)
    (hfit : data.length ≤ 508) :
    ∃ s1 s2, tftpv_server_parse s (0 :: 4 :: b2 :: b3 :: rest) length = .ok (-1, s1) ∧
      tftpv_server_parse s1 (0 :: 4 :: b2 :: b3 :: rest) length = .ok (-1, s2) ∧
      s2.ctx = s1.ctx ∧
      s1.log = s.log ++ [Event.read_block (256 * b2 + b3 + 1), Event.send_datagram
        ([0, 3, (256 * b2 + b3 + 1) / 256, (256 * b2 + b3 + 1) % 256] ++ data)] ∧
      s2.log = s1.log ++ [Event.read_block (256 * b2 + b3 + 1), Event.send_datagram
        ([0, 3, (256 * b2 + b3 + 1) / 256, (256 * b2 + b3 + 1) % 256] ++ data)] := by
  have he : s.ctx.expected_block_number < 65536 := by omega
  have hnext : 256 * b2 + b3 + 1 = if 256 * b2 + b3 = s.ctx.expected_block_number
      then (s.ctx.expected_block_number + 1) % 65536 else s.ctx.expected_block_number := by
    rw [if_pos hexp, ← hexp]; omega
  have hstep1 := parse_ack_accepted s f rb b2 b3 rest length data err1 backend1
    (256 * b2 + b3 + 1) hfile hop hrb hlen h2 h3 he (Or.inl hexp) hnext hcall1 hfit herr1
  have hne : 256 * b2 + b3 ≠ 256 * b2 + b3 + 1 := by omega
  have hstep2 := parse_ack_accepted
    { ctx := { s.ctx with expected_block_number := 256 * b2 + b3 + 1 },
      backend := backend1,
      log := s.log ++ [Event.read_block (256 * b2 + b3 + 1), Event.send_datagram
        ([0, 3, (256 * b2 + b3 + 1) / 256, (256 * b2 + b3 + 1) % 256] ++ data)] }
    f rb b2 b3 rest length data err2 backend2
    (256 * b2 + b3 + 1) hfile hop hrb hlen h2 h3 (by show 256 * b2 + b3 + 1 < 65536; omega)
    (Or.inr rfl) (by show 256 * b2 + b3 + 1 = if 256 * b2 + b3 = 256 * b2 + b3 + 1
      then _ else 256 * b2 + b3 + 1; rw [if_neg hne]) hcall2 hfit herr2
  exact ⟨_, _, hstep1, hstep2, rfl, rfl, rfl⟩

/-! ## Claims C1 to C10 -/

/-- Claim C1, evaluated where it fails: with `expected_block_number = 0` the
duplicate of the last block, number 65535 (bytes `0xFF 0xFF`), is not accepted.
The comparison against `expected_block_number - 1` is made on promoted
integers, so it compares 65535 with -1; the engine sends ERROR 4 "Unexpected
block number", clears `current_file` and returns -1. -/
theorem check_block_num_rejects_duplicate_at_wrap :
    check_block_num (transfer_state write_only_file TFTPV_OP_WRQ 0) [0, 3, 255, 255] =
      .ok (-1, { ctx := { (transfer_state write_only_file TFTPV_OP_WRQ 0).ctx with
                          current_file := none },
                 backend := (),
                 log := [Event.send_datagram
                   ([0, 5, 0, 4] ++ cstr "Unexpected block number" ++ [0])] }) :=
  check_block_num_reject (transfer_state write_only_file TFTPV_OP_WRQ 0) 0 3 255 255 []
    (by decide) (by decide) (by decide) (by decide)

/-- What `check_block_num` accepts: block `b` is accepted exactly when `b` is the
expected block or `b + 1` is (so block 65535 is never accepted as the
duplicate while block 0 is expected). -/
theorem check_block_num_accepts_iff {σ : Type} (s : State σ) (a0 a1 b2 b3 : Nat)
    (rest : List Nat) (h2 : b2 < 256) (h3 : b3 < 256) :
    (∃ s', check_block_num s (a0 :: a1 :: b2 :: b3 :: rest) =
        .ok (((256 * b2 + b3 : Nat) : Int), s')) ↔
      (256 * b2 + b3 = s.ctx.expected_block_number ∨
        256 * b2 + b3 + 1 = s.ctx.expected_block_number) := by
  constructor
  · rintro ⟨s', hs'⟩
    by_contra hcon
    push_neg at hcon
    rw [check_block_num_reject s a0 a1 b2 b3 rest h2 h3 hcon.1 hcon.2] at hs'
    have h := congrArg (fun r => match r with
      | Except.ok (v, _) => v
      | Except.error _ => (0 : Int)) hs'
    simp only at h
    omega
  · rintro (h | h)
    · exact ⟨_, by rw [check_block_num_expected s a0 a1 b2 b3 rest h2 h3 h, h]⟩
    · exact ⟨_, check_block_num_duplicate s a0 a1 b2 b3 rest h2 h3 h⟩

/-- Claim C2: in READING an ACK, and in WRITING a DATA, of length at least 4
whose block number is neither `expected_block_number` nor
`expected_block_number - 1` makes `tftpv_server_parse` send exactly one
datagram, ERROR 4 "Unexpected block number"; `current_file` becomes NULL,
`expected_block_number` and the backend are untouched and no callback is
invoked (the log gains the one datagram only). -/
theorem unexpected_block_number_aborts {σ : Type} (s : State σ) (f : tftpv_file σ)
    (op b2 b3 : Nat) (rest : List Nat) (length : Nat)
    (hlen : 4 ≤ length) (h2 : b2 < 256) (h3 : b3 < 256)
    (hfile : s.ctx.current_file = some f)
    (hstate : (op = TFTPV_OP_ACK ∧ s.ctx.current_operation = TFTPV_OP_RRQ) ∨
      (op = TFTPV_OP_DATA ∧ s.ctx.current_operation = TFTPV_OP_WRQ))
    (hne : 256 * b2 + b3 ≠ s.ctx.expected_block_number)
    (hdup : ((256 * b2 + b3 : Nat) : Int) ≠ (s.ctx.expected_block_number : Int) - 1) :
    tftpv_server_parse s (0 :: op :: b2 :: b3 :: rest) length =
      .ok (-1, { ctx := { s.ctx with current_file := none },
                 backend := s.backend,
                 log := s.log ++ [Event.send_datagram
                   ([0, 5, 0, 4] ++ cstr "Unexpected block number" ++ [0])] }) :=
  parse_block_rejected s f op b2 b3 rest length hlen h2 h3 hfile hstate hne (by omega)

/-- Witness of C2: an ACK for block 5 while block 2 of `file1` is expected. -/
theorem unexpected_block_number_aborts_witness :
    tftpv_server_parse (transfer_state small_file TFTPV_OP_RRQ 2) [0, 4, 0, 5] 4 =
      .ok (-1, { ctx := { (transfer_state small_file TFTPV_OP_RRQ 2).ctx with
                          current_file := none },
                 backend := (),
                 log := [Event.send_datagram
                   ([0, 5, 0, 4] ++ cstr "Unexpected block number" ++ [0])] }) :=
  unexpected_block_number_aborts (transfer_state small_file TFTPV_OP_RRQ 2) small_file
    TFTPV_OP_ACK 0 5 [] 4 (by decide) (by decide) (by decide) rfl (Or.inl ⟨rfl, rfl⟩)
    (by decide) (by decide)

/-- Claim C3, evaluated where it fails: in WRITING with block 65535 expected, a
DATA datagram for block 65535 is accepted (the write callback runs, ACK 65535
is sent, `expected_block_number` wraps to 0); the identical datagram fed again
is answered with ERROR 4 "Unexpected block number" instead of the same ACK, and
`current_file` is cleared. -/
theorem duplicate_after_wrap_is_rejected :
    tftpv_server_parse (transfer_state write_only_file TFTPV_OP_WRQ 65535)
        [0, 3, 255, 255, 1, 2, 3] 7 =
      .ok (-1, { ctx := (transfer_state write_only_file TFTPV_OP_WRQ 0).ctx,
                 backend := (),
                 log := [Event.write_block [1, 2, 3] 65535 3,
                         Event.send_datagram [0, 4, 255, 255]] }) ∧
    tftpv_server_parse
        { ctx := (transfer_state write_only_file TFTPV_OP_WRQ 0).ctx,
          backend := (),
          log := [Event.write_block [1, 2, 3] 65535 3,
                  Event.send_datagram [0, 4, 255, 255]] }
        [0, 3, 255, 255, 1, 2, 3] 7 =
      .ok (-1, { ctx := { (transfer_state write_only_file TFTPV_OP_WRQ 0).ctx with
                          current_file := none },
                 backend := (),
                 log := [Event.write_block [1, 2, 3] 65535 3,
                         Event.send_datagram [0, 4, 255, 255],
                         Event.send_datagram
                           ([0, 5, 0, 4] ++ cstr "Unexpected block number" ++ [0])] }) := by
  constructor
  · exact parse_data_accepted (transfer_state write_only_file TFTPV_OP_WRQ 65535)
      write_only_file (fun _ _ _ u => (⟨TFTPV_ERR_UNDEFINED, []⟩, u)) 255 255 [1, 2, 3] 7
      ⟨TFTPV_ERR_UNDEFINED, []⟩ () rfl rfl rfl (by decide) (by decide) (by decide)
      (Or.inl (by decide)) rfl rfl
  · exact parse_block_rejected _ write_only_file TFTPV_OP_DATA 255 255 [1, 2, 3] 7
      (by decide) (by decide) (by decide) rfl (Or.inr ⟨rfl, rfl⟩) (by decide) (by decide)

/-- Claim C4, evaluated where it fails: an octet-mode RRQ for a file whose read
callback produces a full first block of 512 bytes. `send_data_from_handler`
hands the callback `data_buffer + 4` of a 512-byte `data_buffer`, so the block
runs four bytes past the end of the buffer: undefined behaviour instead of the
DATA packet of 4 + 512 bytes. -/
theorem rrq_full_block_overruns_data_buffer :
    tftpv_server_parse idle_state
        (0 :: 1 :: (cstr "big.bin" ++ 0 :: (cstr "octet" ++ 0 :: []))) 16 =
      .error .out_of_bounds_write :=
  parse_rrq_overflow idle_state (cstr "big.bin") [] 16 full_block_file
    (fun _ u => (List.replicate 512 7, ⟨TFTPV_ERR_UNDEFINED, []⟩, u))
    (List.replicate 512 7) ⟨TFTPV_ERR_UNDEFINED, []⟩ () () (by decide) (by decide)
    rfl rfl rfl (by rw [List.length_replicate]; decide)

/-- Claim C5: an octet-mode WRQ whose filename the resolver maps to a handle with
a write callback makes `tftpv_server_parse` send exactly one datagram, the ACK
`[0, 4, 0, 0]`, without invoking the write callback (the log gains the resolver
call and the datagram only), return 0, and leave `current_file` = that handle,
`current_operation` = WRQ and `expected_block_number` = 1. The buffer may hold
any bytes after the request. -/
theorem wrq_sends_ack_zero {σ : Type} (s : State σ) (name rest : List Nat) (length : Nat)
    (f : tftpv_file σ) (backend : σ)
    (hlen : 4 ≤ length) (hname : 0 ∉ name)
    (hsearch : s.ctx.search_file name s.backend = (some f, backend))
    (hw : f.write_block.isSome = true) :
    tftpv_server_parse s (0 :: 2 :: (name ++ 0 :: (cstr "octet" ++ 0 :: rest))) length =
      .ok (0, { ctx := { s.ctx with current_file := some f, expected_block_number := 1,
                                    current_operation := TFTPV_OP_WRQ },
                backend := backend,
                log := s.log ++ [Event.search_file name,
                  Event.send_datagram [0, 4, 0, 0]] }) := by
  have hack : (2 : Nat) ≠ TFTPV_OP_ACK := by decide
  have hreq : (2 : Nat) = TFTPV_OP_RRQ ∨ (2 : Nat) = TFTPV_OP_WRQ := Or.inr rfl
  unfold tftpv_server_parse
  simp only [load, List.getElem?_cons_succ, List.getElem?_cons_zero, bind, Except.bind,
    opcode_of_bytes 2 (by omega), strlen_request 2 name _ hname, strcmp_request,
    strcmp_from_same, take_name_request, hsearch,
    if_neg (Nat.not_lt.mpr hlen), pure, Except.pure, if_neg hack, if_pos hreq,
    send_ack_eq]
  simp [emit, hw, TFTPV_OP_WRQ]

/-- Witness of C5: WRQ "out.bin" in octet mode on an idle context. -/
theorem wrq_sends_ack_zero_witness :
    tftpv_server_parse idle_state
        (0 :: 2 :: (cstr "out.bin" ++ 0 :: (cstr "octet" ++ 0 :: []))) 16 =
      .ok (0, { ctx := { idle_state.ctx with current_file := some write_only_file,
                                             expected_block_number := 1,
                                             current_operation := TFTPV_OP_WRQ },
                backend := (),
                log := [Event.search_file (cstr "out.bin"),
                  Event.send_datagram [0, 4, 0, 0]] }) :=
  wrq_sends_ack_zero idle_state (cstr "out.bin") [] 16 write_only_file ()
    (by decide) (by decide) rfl rfl

/-- Claim C6, refuted as stated: in WRITING on a file whose write callback
reports DISK_FULL "Can't write", the accepted DATA block 1 is answered by that
ERROR, but `current_file` is still the file afterwards (and block 2 is
expected): the transfer is not aborted. -/
theorem backend_error_keeps_current_file :
    tftpv_server_parse (transfer_state failing_file TFTPV_OP_WRQ 1) [0, 3, 0, 1, 9, 9] 6 =
      .ok (-1, { ctx := (transfer_state failing_file TFTPV_OP_WRQ 2).ctx,
                 backend := (),
                 log := [Event.write_block [9, 9] 1 2,
                   Event.send_datagram ([0, 5, 0, 3] ++ cstr "Can't write" ++ [0])] }) ∧
    (transfer_state failing_file TFTPV_OP_WRQ 2).ctx.current_file.isSome = true :=
  ⟨parse_data_backend_error (transfer_state failing_file TFTPV_OP_WRQ 1) failing_file
      (fun _ _ _ u => (⟨TFTPV_ERR_DISK_FULL, cstr "Can't write"⟩, u)) 0 1 [9, 9] 6
      ⟨TFTPV_ERR_DISK_FULL, cstr "Can't write"⟩ () rfl rfl rfl (by decide) (by decide)
      (by decide) (Or.inl (by decide)) rfl (by decide) (by decide), rfl⟩

/-- Claim C6 as amended: when the backend callback of an accepted DATA (in
WRITING) or of an accepted ACK (in READING) reports an error whose message fits
the error buffer, `tftpv_server_parse` sends exactly one datagram, the ERROR
packet with that code and message, and no ACK or DATA; it returns -1 and leaves
`current_file` and `current_operation` as they were, with
`expected_block_number` advanced when the block was the expected one. -/
theorem backend_error_forwarded {σ : Type} (s : State σ) (f : tftpv_file σ)
    (op b2 b3 : Nat) (rest : List Nat) (length : Nat) (err : tftpv_error) (backend : σ)
    (next : Nat) (call : Event)
    (hfile : s.ctx.current_file = some f) (hlen : 4 ≤ length)
    (h2 : b2 < 256) (h3 : b3 < 256) (he : s.ctx.expected_block_number < 65536)
    (hacc : 256 * b2 + b3 = s.ctx.expected_block_number ∨
      256 * b2 + b3 + 1 = s.ctx.expected_block_number)
    (hnext : next = if 256 * b2 + b3 = s.ctx.expected_block_number
                   then (s.ctx.expected_block_number + 1) % 65536
                   else s.ctx.expected_block_number)
    (hpath :
      (op = TFTPV_OP_DATA ∧ s.ctx.current_operation = TFTPV_OP_WRQ ∧
        call = Event.write_block (rest.take (length - 4)) (256 * b2 + b3) (length - 4) ∧
        ∃ wb, f.write_block = some wb ∧
          wb (rest.take (length - 4)) (256 * b2 + b3) (length - 4) s.backend =
            (err, backend)) ∨
      (op = TFTPV_OP_ACK ∧ s.ctx.current_operation = TFTPV_OP_RRQ ∧
        call = Event.read_block next ∧
        ∃ rb data, f.read_block = some rb ∧ rb next s.backend = (data, err, backend) ∧
          data.length ≤ 508))
    (herr : err.code ≠ TFTPV_ERR_UNDEFINED) (hmsg : err.message.length ≤ 507) :
    tftpv_server_parse s (0 :: op :: b2 :: b3 :: rest) length =
      .ok (-1, { ctx := { s.ctx with expected_block_number := next },
                 backend := backend,
                 log := s.log ++ [call, Event.send_datagram
                   ([0, 5, err.code / 256 % 256, err.code % 256] ++ err.message ++ [0])] }) := by
  rcases hpath with ⟨hop, hcur, hcall, wb, hwb, hres⟩ | ⟨hop, hcur, hcall, rb, data, hrb, hres, hfit⟩
  · subst hop hcall hnext
    exact parse_data_backend_error s f wb b2 b3 rest length err backend hfile hcur hwb hlen
      h2 h3 hacc hres herr hmsg
  · subst hop hcall
    exact parse_ack_backend_error s f rb b2 b3 rest length data err backend next hfile hcur
      hrb hlen h2 h3 he hacc hnext hres hfit herr hmsg

/-- Witness of the amended C6: an ACK for block 1 in READING on a file whose read
callback reports ACCESS_VIOLATION "Can't open file". -/
theorem backend_error_forwarded_witness :
    tftpv_server_parse (transfer_state failing_file TFTPV_OP_RRQ 1) [0, 4, 0, 1] 4 =
      .ok (-1, { ctx := (transfer_state failing_file TFTPV_OP_RRQ 2).ctx,
                 backend := (),
                 log := [Event.read_block 2,
                   Event.send_datagram ([0, 5, 0, 2] ++ cstr "Can't open file" ++ [0])] }) :=
  backend_error_forwarded (transfer_state failing_file TFTPV_OP_RRQ 1) failing_file
    TFTPV_OP_ACK 0 1 [] 4 ⟨TFTPV_ERR_ACCESS_VIOLATION, cstr "Can't open file"⟩ () 2
    (Event.read_block 2) rfl (by decide) (by decide) (by decide) (by decide)
    (Or.inl (by decide)) (by decide)
    (Or.inr ⟨rfl, rfl, rfl,
      fun _ u => ([], ⟨TFTPV_ERR_ACCESS_VIOLATION, cstr "Can't open file"⟩, u), [],
      rfl, rfl, by decide⟩)
    (by decide) (by decide)

/-- Claim C7, evaluated where it fails: while `file1` is being read (block 2
expected), an octet-mode RRQ for the write-only file "out.bin" is rejected with
ERROR 4 "Current operation is unavailable for this file" and -1, yet the
context has changed: `current_file` is now the write-only file and
`expected_block_number` is 1 (`current_operation` is still RRQ). -/
theorem rejected_rrq_overwrites_context :
    tftpv_server_parse (transfer_state small_file TFTPV_OP_RRQ 2)
        (0 :: 1 :: (cstr "out.bin" ++ 0 :: (cstr "octet" ++ 0 :: []))) 16 =
      .ok (-1, { ctx := (transfer_state write_only_file TFTPV_OP_RRQ 1).ctx,
                 backend := (),
                 log := [Event.search_file (cstr "out.bin"), Event.send_datagram
                   ([0, 5, 0, 4] ++ cstr "Current operation is unavailable for this file"
                     ++ [0])] }) :=
  parse_request_without_capability (transfer_state small_file TFTPV_OP_RRQ 2) 1
    (cstr "out.bin") [] 16 write_only_file () (by decide) (by decide) rfl
    (Or.inl ⟨rfl, rfl⟩)

/-- Claim C8: an octet-mode RRQ or WRQ whose filename the resolver maps to no
handle makes `tftpv_server_parse` send exactly one datagram, ERROR 1 "File not
found", and return -1; the whole context (`current_file`,
`expected_block_number`, `current_operation`) is as before, so a transfer in
progress can go on. -/
theorem file_not_found_keeps_context {σ : Type} (s : State σ) (op : Nat)
    (name rest : List Nat) (length : Nat) (backend : σ)
    (hop : op = TFTPV_OP_RRQ ∨ op = TFTPV_OP_WRQ) (hlen : 4 ≤ length) (hname : 0 ∉ name)
    (hsearch : s.ctx.search_file name s.backend = (none, backend)) :
    tftpv_server_parse s (0 :: op :: (name ++ 0 :: (cstr "octet" ++ 0 :: rest))) length =
      .ok (-1, { ctx := s.ctx, backend := backend,
                 log := s.log ++ [Event.search_file name, Event.send_datagram
                   ([0, 5, 0, 1] ++ cstr "File not found" ++ [0])] }) := by
  have hop' : op = 1 ∨ op = 2 := hop
  have hack : op ≠ TFTPV_OP_ACK := by simp only [TFTPV_OP_ACK]; omega
  unfold tftpv_server_parse
  simp only [load, List.getElem?_cons_succ, List.getElem?_cons_zero, bind, Except.bind,
    opcode_of_bytes op (by omega), strlen_request op name _ hname, strcmp_request,
    strcmp_from_same, take_name_request, hsearch,
    if_neg (Nat.not_lt.mpr hlen), pure, Except.pure, if_neg hack, if_pos hop,
    send_error_eq _ _ _ (show (cstr "File not found").length ≤ 507 by decide)]
  simp [emit, TFTPV_ERR_FILE_NOT_FOUND]

/-- Witness of C8: an RRQ for the unknown name "nofile" while `file1` is being
read. -/
theorem file_not_found_keeps_context_witness :
    tftpv_server_parse (transfer_state small_file TFTPV_OP_RRQ 2)
        (0 :: 1 :: (cstr "nofile" ++ 0 :: (cstr "octet" ++ 0 :: []))) 15 =
      .ok (-1, { ctx := (transfer_state small_file TFTPV_OP_RRQ 2).ctx, backend := (),
                 log := [Event.search_file (cstr "nofile"), Event.send_datagram
                   ([0, 5, 0, 1] ++ cstr "File not found" ++ [0])] }) :=
  file_not_found_keeps_context (transfer_state small_file TFTPV_OP_RRQ 2) 1
    (cstr "nofile") [] 15 () (Or.inl rfl) (by decide) (by decide) rfl

/-- Claim C9: an RRQ or WRQ with a NUL-terminated filename and a NUL-terminated
mode other than exactly "octet" makes `tftpv_server_parse` send exactly one
datagram, ERROR 4 "Only octet mode is supported", and return -1; the resolver
is not invoked (the log gains the datagram only) and context and backend are
unchanged. -/
theorem unsupported_mode_rejected {σ : Type} (s : State σ) (op : Nat)
    (name mode rest : List Nat) (length : Nat)
    (hop : op = TFTPV_OP_RRQ ∨ op = TFTPV_OP_WRQ) (hlen : 4 ≤ length)
    (hname : 0 ∉ name) (hmode0 : 0 ∉ mode) (hmode : mode ≠ cstr "octet") :
    tftpv_server_parse s (0 :: op :: (name ++ 0 :: (mode ++ 0 :: rest))) length =
      .ok (-1, { s with log := s.log ++ [Event.send_datagram
        ([0, 5, 0, 4] ++ cstr "Only octet mode is supported" ++ [0])] }) := by
  obtain ⟨d, hd, hcmp⟩ := strcmp_from_differs mode (cstr "octet") rest hmode0 (by decide) hmode
  have hop' : op = 1 ∨ op = 2 := hop
  have hack : op ≠ TFTPV_OP_ACK := by simp only [TFTPV_OP_ACK]; omega
  unfold tftpv_server_parse
  simp only [load, List.getElem?_cons_succ, List.getElem?_cons_zero, bind, Except.bind,
    opcode_of_bytes op (by omega), strlen_request op name _ hname, strcmp_request, hcmp,
    if_neg (Nat.not_lt.mpr hlen), pure, Except.pure, if_neg hack, if_pos hop,
    send_error_eq s _ _ (show (cstr "Only octet mode is supported").length ≤ 507 by decide)]
  simp [hd, emit, TFTPV_ERR_ILLEGAL_OPERATION]

/-- Witness of C9: RRQ "file1" in mode "netascii"; the file exists. -/
theorem unsupported_mode_rejected_witness :
    tftpv_server_parse idle_state
        (0 :: 1 :: (cstr "file1" ++ 0 :: (cstr "netascii" ++ 0 :: []))) 17 =
      .ok (-1, { idle_state with log := idle_state.log ++ [Event.send_datagram
        ([0, 5, 0, 4] ++ cstr "Only octet mode is supported" ++ [0])] }) :=
  unsupported_mode_rejected idle_state 1 (cstr "file1") (cstr "netascii") [] 17
    (Or.inl rfl) (by decide) (by decide) (by decide) (by decide)

/-- Claim C10: a datagram shorter than 4 bytes, or one of length at least 4
whose opcode is none of 1, 2, 3, 4, or an ACK while the context is not in
READING, or a DATA while the context is not in WRITING, makes
`tftpv_server_parse` send exactly one datagram, an ERROR packet with code 4
(and the message of the case), and return -1; no resolver or backend callback
is invoked (the log gains the datagram only) and the context and the backend
are unchanged. -/
theorem state_independent_rejections {σ : Type} (s : State σ) (buffer : List Nat)
    (length : Nat) (msg : List Nat)
    (h : (length < 4 ∧ msg = cstr "Packet too short") ∨
      (4 ≤ length ∧ ∃ b0 b1 rest, buffer = b0 :: b1 :: rest ∧ b0 < 256 ∧ b1 < 256 ∧
        ((256 * b0 + b1 ≠ 1 ∧ 256 * b0 + b1 ≠ 2 ∧ 256 * b0 + b1 ≠ 3 ∧ 256 * b0 + b1 ≠ 4 ∧
            msg = cstr "Unsupported operation") ∨
          (256 * b0 + b1 = TFTPV_OP_ACK ∧
            ¬ (s.ctx.current_file.isSome = true ∧ s.ctx.current_operation = TFTPV_OP_RRQ) ∧
            msg = cstr "No active read operation") ∨
          (256 * b0 + b1 = TFTPV_OP_DATA ∧
            ¬ (s.ctx.current_file.isSome = true ∧ s.ctx.current_operation = TFTPV_OP_WRQ) ∧
            msg = cstr "No active write operation")))) :
    tftpv_server_parse s buffer length =
      .ok (-1, { s with log := s.log ++ [Event.send_datagram
        ([0, 5, 0, 4] ++ msg ++ [0])] }) := by
  rcases h with ⟨hshort, hmsg⟩ | ⟨hlen, b0, b1, rest, hbuf, h0, h1, hcase⟩
  · subst hmsg
    unfold tftpv_server_parse
    simp only [if_pos hshort, bind, Except.bind, pure, Except.pure,
      send_error_eq s _ _ (show (cstr "Packet too short").length ≤ 507 by decide)]
    simp [emit, TFTPV_ERR_ILLEGAL_OPERATION]
  · subst hbuf
    rcases hcase with ⟨n1, n2, n3, n4, hmsg⟩ | ⟨hack, hstate, hmsg⟩ | ⟨hdata, hstate, hmsg⟩
    · subst hmsg
      have hnack : ¬ (256 * b0 + b1 = TFTPV_OP_ACK) := n4
      have hnreq : ¬ (256 * b0 + b1 = TFTPV_OP_RRQ ∨ 256 * b0 + b1 = TFTPV_OP_WRQ) := by
        rintro (h | h)
        · exact n1 h
        · exact n2 h
      have hndata : ¬ (256 * b0 + b1 = TFTPV_OP_DATA) := n3
      unfold tftpv_server_parse
      simp only [load, List.getElem?_cons_succ, List.getElem?_cons_zero, bind, Except.bind,
        u16_of_bytes b0 b1 h0 h1, if_neg (Nat.not_lt.mpr hlen), pure, Except.pure,
        if_neg hnack, if_neg hnreq, if_neg hndata,
        send_error_eq s _ _ (show (cstr "Unsupported operation").length ≤ 507 by decide)]
      simp [emit, TFTPV_ERR_ILLEGAL_OPERATION]
    · subst hmsg
      have hguard : s.ctx.current_file.isNone = true ∨
          s.ctx.current_operation ≠ TFTPV_OP_RRQ := by
        by_cases hf : s.ctx.current_file.isSome = true
        · exact Or.inr (fun hc => hstate ⟨hf, hc⟩)
        · left
          cases hcf : s.ctx.current_file with
          | none => rfl
          | some f => simp [hcf] at hf
      unfold tftpv_server_parse
      simp only [load, List.getElem?_cons_succ, List.getElem?_cons_zero, bind, Except.bind,
        u16_of_bytes b0 b1 h0 h1, if_neg (Nat.not_lt.mpr hlen), pure, Except.pure,
        if_pos hack, if_pos hguard,
        send_error_eq s _ _ (show (cstr "No active read operation").length ≤ 507 by decide)]
      simp [emit, TFTPV_ERR_ILLEGAL_OPERATION]
    · subst hmsg
      have hnack : ¬ (256 * b0 + b1 = TFTPV_OP_ACK) := by
        rw [hdata]; decide
      have hnreq : ¬ (256 * b0 + b1 = TFTPV_OP_RRQ ∨ 256 * b0 + b1 = TFTPV_OP_WRQ) := by
        rw [hdata]; decide
      have hguard : s.ctx.current_file.isNone = true ∨
          s.ctx.current_operation ≠ TFTPV_OP_WRQ := by
        by_cases hf : s.ctx.current_file.isSome = true
        · exact Or.inr (fun hc => hstate ⟨hf, hc⟩)
        · left
          cases hcf : s.ctx.current_file with
          | none => rfl
          | some f => simp [hcf] at hf
      unfold tftpv_server_parse
      simp only [load, List.getElem?_cons_succ, List.getElem?_cons_zero, bind, Except.bind,
        u16_of_bytes b0 b1 h0 h1, if_neg (Nat.not_lt.mpr hlen), pure, Except.pure,
        if_neg hnack, if_neg hnreq, if_pos hdata, if_pos hguard,
        send_error_eq s _ _ (show (cstr "No active write operation").length ≤ 507 by decide)]
      simp [emit, TFTPV_ERR_ILLEGAL_OPERATION]

/-- Witness of C10: a 4-byte datagram with opcode 99 while `file1` is being
read. -/
theorem state_independent_rejections_witness :
    tftpv_server_parse (transfer_state small_file TFTPV_OP_RRQ 2) [0, 99, 0, 0] 4 =
      .ok (-1, { transfer_state small_file TFTPV_OP_RRQ 2 with
        log := (transfer_state small_file TFTPV_OP_RRQ 2).log ++ [Event.send_datagram
          ([0, 5, 0, 4] ++ cstr "Unsupported operation" ++ [0])] }) :=
  state_independent_rejections (transfer_state small_file TFTPV_OP_RRQ 2) [0, 99, 0, 0] 4
    (cstr "Unsupported operation")
    (Or.inr ⟨by decide, 0, 99, [0, 0], rfl, by decide, by decide,
      Or.inl ⟨by decide, by decide, by decide, by decide, rfl⟩⟩)

/-! ## Return values -/

/-- An ACK or a DATA datagram never makes `tftpv_server_parse` return 0: whenever
the call returns, accepted or not, the value is -1. -/
theorem ack_data_return_minus_one {σ : Type} (s s' : State σ) (op : Nat) (rest : List Nat)
    (length : Nat) (r : Int) (hop : op = TFTPV_OP_DATA ∨ op = TFTPV_OP_ACK)
    (h : tftpv_server_parse s (0 :: op :: rest) length = .ok (r, s')) : r = -1 := by
  have hop' : op = 3 ∨ op = 4 := hop
  unfold tftpv_server_parse at h
  simp only [load, List.getElem?_cons_succ, List.getElem?_cons_zero, bind, Except.bind,
    opcode_of_bytes op (by omega), pure, Except.pure] at h
  repeat' split at h
  all_goals first
    | (simp only [Except.ok.injEq, Prod.mk.injEq, reduceCtorEq] at h; exact h.1.symm)
    | (simp only [reduceCtorEq] at h)
    | (exfalso; simp only [TFTPV_OP_RRQ, TFTPV_OP_WRQ] at *; omega)

/-! ## The list resolver -/

theorem search_first_match {σ : Type} (filename : List Nat) (sentinel : tftpv_file σ)
    (post : List (tftpv_file σ)) :
    ∀ (pre : List (tftpv_file σ)) (i : Nat) (g : tftpv_file σ),
      (∀ f ∈ pre, f.filename ≠ none) → pre[i]? = some g → g.filename = some filename →
      (∀ j h, j < i → pre[j]? = some h → h.filename ≠ some filename) →
      tftpv_server_search_file_in_list filename (pre ++ sentinel :: post) = .ok (some g) := by
  intro pre
  induction pre with
  | nil => intro i g _ hget; simp at hget
  | cons f fs ih =>
    intro i g hpre hget hname hmin
    cases i with
    | zero =>
      simp only [List.getElem?_cons_zero, Option.some.injEq] at hget
      subst hget
      simp [tftpv_server_search_file_in_list, hname]
    | succ k =>
      simp only [List.getElem?_cons_succ] at hget
      have hf : f.filename ≠ some filename := hmin 0 f (Nat.succ_pos k) (by simp)
      have hfn : f.filename ≠ none := hpre f (by simp)
      have hrec := ih k g (fun x hx => hpre x (List.mem_cons_of_mem _ hx)) hget hname
        (fun j h hj hjget => hmin (j + 1) h (Nat.succ_lt_succ hj) (by simpa using hjget))
      cases hfile : f.filename with
      | none => exact absurd hfile hfn
      | some name =>
        have hne : name ≠ filename := fun e => hf (by rw [hfile, e])
        simp [tftpv_server_search_file_in_list, hfile, hne, hrec]

theorem search_none_iff {σ : Type} (filename : List Nat) (sentinel : tftpv_file σ)
    (post : List (tftpv_file σ)) (hsent : sentinel.filename = none) :
    ∀ (pre : List (tftpv_file σ)), (∀ f ∈ pre, f.filename ≠ none) →
      ((∀ f ∈ pre, f.filename ≠ some filename) ↔
        tftpv_server_search_file_in_list filename (pre ++ sentinel :: post) = .ok none) := by
  intro pre
  induction pre with
  | nil => intro _; simp [tftpv_server_search_file_in_list, hsent]
  | cons f fs ih =>
    intro hpre
    have hfn : f.filename ≠ none := hpre f (by simp)
    have hih := ih (fun x hx => hpre x (List.mem_cons_of_mem _ hx))
    cases hfile : f.filename with
    | none => exact absurd hfile hfn
    | some name =>
      by_cases hne : name = filename
      · subst hne
        simp [tftpv_server_search_file_in_list, hfile]
      · have hne' : ¬ filename = name := fun e => hne e.symm
        simp [tftpv_server_search_file_in_list, hfile, hne, hne', ← hih]

theorem search_result_mem {σ : Type} (filename : List Nat) (sentinel : tftpv_file σ)
    (post : List (tftpv_file σ)) (hsent : sentinel.filename = none) :
    ∀ (pre : List (tftpv_file σ)) (g : tftpv_file σ),
      tftpv_server_search_file_in_list filename (pre ++ sentinel :: post) = .ok (some g) →
      g ∈ pre ∧ g.filename = some filename := by
  intro pre
  induction pre with
  | nil => intro g h; simp [tftpv_server_search_file_in_list, hsent] at h
  | cons f fs ih =>
    intro g h
    cases hfile : f.filename with
    | none => simp [tftpv_server_search_file_in_list, hfile] at h
    | some name =>
      by_cases hne : name = filename
      · subst hne
        simp only [List.cons_append, tftpv_server_search_file_in_list, hfile, if_true,
          Except.ok.injEq, Option.some.injEq] at h
        subst h
        exact ⟨by simp, hfile⟩
      · simp only [List.cons_append, tftpv_server_search_file_in_list, hfile, if_neg hne] at h
        obtain ⟨hm, hn⟩ := ih g h
        exact ⟨List.mem_cons_of_mem _ hm, hn⟩

/-! ## The in-memory backend behind the engine -/

theorem block_offset_one : block_offset 1 = 0 := by decide

theorem block_offset_two : block_offset 2 = 512 := by decide

theorem filedata_of_length (content : List Nat) (h : content.length ≤ MAX_FILE_SIZE) :
    (filedata_of content).buf.length = MAX_FILE_SIZE := by
  simp only [filedata_of, List.length_append, List.length_replicate]
  omega

/-- Block 1 of a file shorter than 512 bytes is its whole content. -/
theorem read_memfile_first (content : List Nat) (h : content.length < 512) :
    read_memfile 1 (filedata_of content) = .ok content := by
  have hfit : 0 + content.length ≤
      (content ++ List.replicate (MAX_FILE_SIZE - content.length) 0).length := by
    simp
  simp only [read_memfile, block_offset_one, filedata_of, if_pos h, if_pos hfit,
    List.drop_zero, List.take_left, Nat.not_lt_zero, if_false, gt_iff_lt]

/-- Block 2 of a file shorter than 512 bytes is empty. -/
theorem read_memfile_second (content : List Nat) (h : content.length < 512) :
    read_memfile 2 (filedata_of content) = .ok [] := by
  have hgt : 512 > content.length := h
  simp only [read_memfile, block_offset_two, filedata_of, if_pos hgt]

theorem search_in_list_head (name : List Nat) (i : Nat) (others : List (tftpv_file membackend))
    (m : membackend) :
    search_in_list (memfile name i :: others) name m = (some (memfile name i), m) := by
  simp [search_in_list, tftpv_server_search_file_in_list, memfile]

/-- An octet-mode WRQ for a writable file: ACK 0 is sent, the context is in
WRITING with block 1 expected, and 0 is returned. -/
theorem parse_wrq_accepted {σ : Type} (s : State σ) (name rest : List Nat) (length : Nat)
    (f : tftpv_file σ) (backend : σ)
    (hlen : 4 ≤ length) (hname : 0 ∉ name)
    (hsearch : s.ctx.search_file name s.backend = (some f, backend))
    (hw : f.write_block.isSome = true) :
    tftpv_server_parse s (0 :: 2 :: (name ++ 0 :: (cstr "octet" ++ 0 :: rest))) length =
      .ok (0, { ctx := { s.ctx with current_file := some f, expected_block_number := 1,
                                    current_operation := 2 },
                backend := backend,
                log := s.log ++ [Event.search_file name,
                  Event.send_datagram [0, 4, 0, 0]] }) := by
  have hack : (2 : Nat) ≠ TFTPV_OP_ACK := by decide
  have hreq : (2 : Nat) = TFTPV_OP_RRQ ∨ (2 : Nat) = TFTPV_OP_WRQ := Or.inr rfl
  unfold tftpv_server_parse
  simp only [load, List.getElem?_cons_succ, List.getElem?_cons_zero, bind, Except.bind,
    opcode_of_bytes 2 (by omega), strlen_request 2 name _ hname, strcmp_request,
    strcmp_from_same, take_name_request, hsearch,
    if_neg (Nat.not_lt.mpr hlen), pure, Except.pure, if_neg hack, if_pos hreq,
    send_ack_eq]
  simp [emit, hw, TFTPV_OP_WRQ]

/-- The end-to-end read of the in-memory example for a file of at most 508
bytes: the RRQ is answered with DATA block 1 carrying the whole content, the
ACK for block 1 with the empty DATA block 2. -/
theorem memory_read_end_to_end (name content : List Nat)
    (others : List (tftpv_file membackend)) (more : List (List Nat))
    (hname : 0 ∉ name) (hsize : content.length ≤ 508) :
    main_loop (memory_server (memfile name 0 :: others) (content :: more))
        [(0 :: 1 :: (name ++ 0 :: (cstr "octet" ++ 0 :: [])), 2 + name.length + 1 + 5 + 1),
         ([0, 4, 0, 1], 4)] =
      .ok { ctx := { search_file := search_in_list (memfile name 0 :: others),
                     current_file := some (memfile name 0),
                     expected_block_number := 2, current_operation := 1 },
            backend := { filebufs := (content :: more).map filedata_of, fault := none },
            log := [Event.search_file name, Event.read_block 1,
              Event.send_datagram ([0, 3, 0, 1] ++ content),
              Event.read_block 2, Event.send_datagram [0, 3, 0, 2]] } := by
  have hlt : content.length < 512 := by omega
  have hread1 : memfile_read 0 1 (⟨(content :: more).map filedata_of, none⟩ : membackend) = (content, ⟨TFTPV_ERR_UNDEFINED, []⟩,
        (⟨(content :: more).map filedata_of, none⟩ : membackend)) := by
    simp [memfile_read, read_memfile_first content hlt]
  have hread2 : memfile_read 0 2 (⟨(content :: more).map filedata_of, none⟩ : membackend) = ([], ⟨TFTPV_ERR_UNDEFINED, []⟩,
        (⟨(content :: more).map filedata_of, none⟩ : membackend)) := by
    simp [memfile_read, read_memfile_second content hlt]
  have hstep1 := parse_rrq_first_block
    (memory_server (memfile name 0 :: others) (content :: more)) name []
    (2 + name.length + 1 + 5 + 1) (memfile name 0) (memfile_read 0) content
    ⟨TFTPV_ERR_UNDEFINED, []⟩ _ _ (by omega) hname
    (search_in_list_head name 0 others _) rfl hread1 hsize rfl
  have hstep2 := parse_ack_accepted
    (⟨⟨search_in_list (memfile name 0 :: others), some (memfile name 0), 1, 1⟩,
      ⟨(content :: more).map filedata_of, none⟩,
      [Event.search_file name, Event.read_block 1,
        Event.send_datagram ([0, 3, 0, 1] ++ content)]⟩ : State membackend)
    (memfile name 0) (memfile_read 0) 0 1 [] 4 [] ⟨TFTPV_ERR_UNDEFINED, []⟩
    (⟨(content :: more).map filedata_of, none⟩ : membackend) 2
    rfl rfl rfl (Nat.le_refl 4) (by omega) (by omega)
    (show (1 : Nat) < 65536 by omega) (Or.inl rfl) rfl hread2 (Nat.zero_le _) rfl
  simp only [main_loop]
  have h1 := hstep1
  simp only [memory_server, List.nil_append] at h1
  simp only [memory_server]
  rw [h1]
  simp only []
  have h2 := hstep2
  simp only [List.cons_append, List.nil_append] at h2 ⊢
  rw [h2]

/-! ## Buffer fit of DATA packets and the in-memory writer -/

/-- With a read callback that reports no error, `send_data_from_handler` sends a
datagram exactly when the callback stored at most 508 bytes. -/
theorem send_data_from_handler_fits_iff {σ : Type} (s : State σ) (block_number : Nat)
    (f : tftpv_file σ) (rb : Nat → σ → List Nat × tftpv_error × σ)
    (data : List Nat) (err : tftpv_error) (backend : σ)
    (hrb : f.read_block = some rb)
    (hcall : rb (block_number % 65536) s.backend = (data, err, backend))
    (herr : err.code = 0) :
    (∃ s', send_data_from_handler s block_number f = .ok s') ↔ data.length ≤ 508 := by
  constructor
  · rintro ⟨s', hs'⟩
    by_contra hbig
    rw [send_data_from_handler_overflow s block_number f rb data err backend hrb hcall
      (by omega)] at hs'
    simp at hs'
  · intro hfit
    exact ⟨_, send_data_from_handler_ok s block_number f rb data err backend hrb hcall
      hfit herr⟩

/-- The offset of block `n` for `n` from 1 on. -/
theorem block_offset_pos (n : Nat) (h1 : 1 ≤ n) (h2 : n ≤ 65535) :
    block_offset n = (n - 1) * 512 := by
  simp only [block_offset, SIZE_MOD]
  norm_num
  omega

/-- The offset of block 0 is `(size_t)-512`. -/
theorem block_offset_zero : block_offset 0 = 2 ^ 64 - 512 := by decide
/-- Copying the same bytes to the same place a second time changes nothing. -/
theorem memcpy_idempotent (buf src b1 : List Nat) (off : Nat)
    (h : memcpy buf off src = .ok b1) : memcpy b1 off src = .ok b1 := by
  simp only [memcpy] at h ⊢
  by_cases hfit : off + src.length ≤ buf.length
  · rw [if_pos hfit] at h
    simp only [Except.ok.injEq] at h
    subst h
    have hoff : (List.take off buf).length = off := by simp; omega
    have hlen : (List.take off buf ++ src ++ List.drop (off + src.length) buf).length =
        buf.length := by simp; omega
    rw [if_pos (by rw [hlen]; exact hfit)]
    have e1 : List.take off (List.take off buf ++ src ++ List.drop (off + src.length) buf) =
        List.take off buf := by
      rw [List.append_assoc]
      exact List.take_left' hoff
    have e2 : List.drop (off + src.length)
        (List.take off buf ++ src ++ List.drop (off + src.length) buf) =
        List.drop (off + src.length) buf := by
      exact List.drop_left' (by simp [hoff])
    rw [e1, e2]
  · rw [if_neg hfit] at h
    simp at h

/-- Two calls of `write_memfile` with the same block, for a block number from 1
on and a block that fits the file: the buffer after the second call is the
buffer after the first, but the recorded size is only the same for block 1,
which resets it; for any other block it grows by `block_length` again. -/
theorem write_memfile_twice (block : List Nat) (n len : Nat) (f : filedata)
    (hn1 : 1 ≤ n) (hn2 : n ≤ 65535) (hfit : (n - 1) * 512 + len ≤ MAX_FILE_SIZE)
    (hblock : block.length = len) (hbuf : f.buf.length = MAX_FILE_SIZE) :
    ∃ buf, write_memfile block n len f =
        .ok (⟨TFTPV_ERR_UNDEFINED, []⟩,
          ⟨buf, ((if n = 1 then 0 else f.size) + len) % SIZE_MOD⟩) ∧
      write_memfile block n len
          ⟨buf, ((if n = 1 then 0 else f.size) + len) % SIZE_MOD⟩ =
        .ok (⟨TFTPV_ERR_UNDEFINED, []⟩,
          ⟨buf, ((if n = 1 then 0
                  else ((if n = 1 then 0 else f.size) + len) % SIZE_MOD) + len) % SIZE_MOD⟩) := by
  have hoff := block_offset_pos n hn1 hn2
  have hmax : MAX_FILE_SIZE = 1024 := rfl
  have hmod : SIZE_MOD = 2 ^ 64 := rfl
  have hnot : ¬ ((n - 1) * 512 + len) % SIZE_MOD > MAX_FILE_SIZE := by
    rw [hmod, Nat.mod_eq_of_lt (by rw [hmax] at hfit; omega)]
    omega
  have hload : load_bytes block len = .ok block := by
    simp only [load_bytes]
    rw [if_pos (by omega), List.take_of_length_le (by omega)]
  have hcopy : ∃ buf, memcpy f.buf ((n - 1) * 512) block = .ok buf := by
    simp only [memcpy]
    rw [if_pos (by rw [hbuf, hblock]; exact hfit)]
    exact ⟨_, rfl⟩
  obtain ⟨buf, hbufeq⟩ := hcopy
  have hagain := memcpy_idempotent f.buf block buf _ hbufeq
  by_cases h1 : n = 1
  · refine ⟨buf, ?_, ?_⟩
    · simp only [write_memfile, hoff, if_neg hnot, hload, if_pos h1, hbufeq]
    · simp only [write_memfile, hoff, if_neg hnot, hload, if_pos h1, hagain]
  · refine ⟨buf, ?_, ?_⟩
    · simp only [write_memfile, hoff, if_neg hnot, hload, if_neg h1, hbufeq]
    · simp only [write_memfile, hoff, if_neg hnot, hload, if_neg h1, hagain]

/-! ## Claims C11 to C20 -/

/-- Claim C11, evaluated where it fails: a 4-byte RRQ datagram `[0, 1, 'f', 'i']`
whose filename is not NUL-terminated within its length. The "Invalid packet"
test compares two pointers that are never NULL, and `strchr` and `strcmp` read
on past `length`: with the bytes of an earlier request still in the receive
buffer the file "file1" is served; with other bytes behind the datagram the
reply is "Only octet mode is supported"; with no memory behind it the read
leaves the buffer. ERROR 4 "Invalid packet" is sent in none of the cases. -/
theorem truncated_request_reads_past_length :
    tftpv_server_parse idle_state
        (0 :: 1 :: (cstr "file1" ++ 0 :: (cstr "octet" ++ 0 :: []))) 4 =
      .ok (0, { ctx := (transfer_state small_file TFTPV_OP_RRQ 1).ctx, backend := (),
                log := [Event.search_file (cstr "file1"), Event.read_block 1,
                  Event.send_datagram ([0, 3, 0, 1] ++ cstr "0123456789")] }) ∧
    tftpv_server_parse idle_state [0, 1, 102, 105, 0, 0] 4 =
      .ok (-1, { idle_state with log := [Event.send_datagram
        ([0, 5, 0, 4] ++ cstr "Only octet mode is supported" ++ [0])] }) ∧
    tftpv_server_parse idle_state [0, 1, 102, 105] 4 = .error .out_of_bounds_read ∧
    List.take 4 (0 :: 1 :: (cstr "file1" ++ 0 :: (cstr "octet" ++ 0 :: []))) =
      [0, 1, 102, 105] :=
  ⟨rfl, rfl, rfl, rfl⟩

/-- Claim C12, evaluated where it fails: an accepted ACK (answered with DATA
block 2) and an accepted DATA (answered with ACK 1) both return -1, the value
of every rejection, while an accepted WRQ returns 0; and an RRQ whose read
callback fails is answered with an ERROR packet but returns 0. -/
theorem accepted_ack_and_data_return_minus_one :
    tftpv_server_parse (transfer_state small_file TFTPV_OP_RRQ 1) [0, 4, 0, 1] 4 =
      .ok (-1, { ctx := (transfer_state small_file TFTPV_OP_RRQ 2).ctx, backend := (),
                 log := [Event.read_block 2, Event.send_datagram [0, 3, 0, 2]] }) ∧
    tftpv_server_parse (transfer_state write_only_file TFTPV_OP_WRQ 1)
        [0, 3, 0, 1, 9, 9] 6 =
      .ok (-1, { ctx := (transfer_state write_only_file TFTPV_OP_WRQ 2).ctx, backend := (),
                 log := [Event.write_block [9, 9] 1 2,
                   Event.send_datagram [0, 4, 0, 1]] }) ∧
    tftpv_server_parse idle_state
        (0 :: 2 :: (cstr "out.bin" ++ 0 :: (cstr "octet" ++ 0 :: []))) 16 =
      .ok (0, { ctx := (transfer_state write_only_file TFTPV_OP_WRQ 1).ctx, backend := (),
                log := [Event.search_file (cstr "out.bin"),
                  Event.send_datagram [0, 4, 0, 0]] }) ∧
    tftpv_server_parse idle_state
        (0 :: 1 :: (cstr "locked" ++ 0 :: (cstr "octet" ++ 0 :: []))) 15 =
      .ok (0, { ctx := (transfer_state failing_file TFTPV_OP_RRQ 1).ctx, backend := (),
                log := [Event.search_file (cstr "locked"), Event.read_block 1,
                  Event.send_datagram ([0, 5, 0, 2] ++ cstr "Can't open file" ++ [0])] }) :=
  ⟨rfl, rfl, rfl, rfl⟩

/-- Claim C13: on a table whose first entry with a NULL name is `sentinel`,
`tftpv_server_search_file_in_list` returns the handle at the smallest index
before the sentinel whose name equals the filename byte for byte; it returns
NULL exactly when no handle before the sentinel has that name; and what it
returns is always one of the handles before the sentinel, whatever follows
it. -/
theorem search_file_in_list_first_match {σ : Type} (filename : List Nat)
    (pre post : List (tftpv_file σ)) (sentinel : tftpv_file σ)
    (hpre : ∀ f ∈ pre, f.filename ≠ none) (hsent : sentinel.filename = none) :
    (∀ (i : Nat) (g : tftpv_file σ), pre[i]? = some g → g.filename = some filename →
      (∀ (j : Nat) (h : tftpv_file σ), j < i → pre[j]? = some h →
        h.filename ≠ some filename) →
      tftpv_server_search_file_in_list filename (pre ++ sentinel :: post) =
        .ok (some g)) ∧
    ((∀ f ∈ pre, f.filename ≠ some filename) ↔
      tftpv_server_search_file_in_list filename (pre ++ sentinel :: post) = .ok none) ∧
    (∀ g, tftpv_server_search_file_in_list filename (pre ++ sentinel :: post) =
        .ok (some g) → g ∈ pre ∧ g.filename = some filename) :=
  ⟨fun i g hget hname hmin =>
      search_first_match filename sentinel post pre i g hpre hget hname hmin,
    search_none_iff filename sentinel post hsent pre hpre,
    search_result_mem filename sentinel post hsent pre⟩

/-- Witness of C13: two handles are named "file2"; the one at the smaller index
is returned, the "file2" behind the sentinel plays no part. -/
theorem search_file_in_list_first_match_witness :
    tftpv_server_search_file_in_list (cstr "file2")
        ([memfile (cstr "file1") 0, memfile (cstr "file2") 1, memfile (cstr "file2") 2] ++
          sentinel_file :: [memfile (cstr "file2") 3]) =
      .ok (some (memfile (cstr "file2") 1)) :=
  (search_file_in_list_first_match (cstr "file2")
    [memfile (cstr "file1") 0, memfile (cstr "file2") 1, memfile (cstr "file2") 2]
    [memfile (cstr "file2") 3] sentinel_file
    (by intro f hf; simp only [List.mem_cons, List.mem_singleton, List.not_mem_nil,
          or_false] at hf
        rcases hf with h | h | h <;> subst h <;> simp [memfile])
    rfl).1 1 (memfile (cstr "file2") 1) rfl rfl
    (by intro j h hj hget
        have hj0 : j = 0 := by omega
        subst hj0
        simp only [List.getElem?_cons_zero, Option.some.injEq] at hget
        subst hget
        simp only [memfile]
        decide)

/-- Claim C14, evaluated where it fails: the in-memory example with 509 bytes in
"file1". The octet-mode RRQ makes `read_memfile` copy 509 bytes to
`data_buffer + 4`, one byte more than the 512-byte `data_buffer` has left:
undefined behaviour instead of DATA block 1 with the 509 file bytes. -/
theorem memory_read_509_bytes_overruns_data_buffer :
    main_loop (memory_server files [List.replicate 509 7, []])
        [(0 :: 1 :: (cstr "file1" ++ 0 :: (cstr "octet" ++ 0 :: [])), 14)] =
      .error .out_of_bounds_write :=
  rfl

/-- Claim C15: WRQ (octet) for a file with a write callback that reports no
error, then DATA block 1 with 500 payload bytes, then DATA block 2 with 12
payload bytes. The replies are ACK 0, ACK 1, ACK 2 in that order and the write
callback is invoked exactly twice, with (block 1, the 500 bytes) and then
(block 2, the 12 bytes): the log holds the resolver call and these five events
in this order. -/
theorem write_transfer_end_to_end {σ : Type} (s : State σ) (name p1 p2 : List Nat)
    (f : tftpv_file σ) (wb : List Nat → Nat → Nat → σ → tftpv_error × σ)
    (backend0 backend1 backend2 : σ) (err1 err2 : tftpv_error)
    (hname : 0 ∉ name)
    (hsearch : s.ctx.search_file name s.backend = (some f, backend0))
    (hwb : f.write_block = some wb)
    (hp1 : p1.length = 500) (hp2 : p2.length = 12)
    (hw1 : wb p1 1 500 backend0 = (err1, backend1)) (herr1 : err1.code = TFTPV_ERR_UNDEFINED)
    (hw2 : wb p2 2 12 backend1 = (err2, backend2)) (herr2 : err2.code = TFTPV_ERR_UNDEFINED) :
    main_loop s
        [(0 :: 2 :: (name ++ 0 :: (cstr "octet" ++ 0 :: [])), 2 + name.length + 1 + 5 + 1),
         (0 :: 3 :: 0 :: 1 :: p1, 504),
         (0 :: 3 :: 0 :: 2 :: p2, 16)] =
      .ok { ctx := { s.ctx with current_file := some f, expected_block_number := 3,
                                current_operation := TFTPV_OP_WRQ },
            backend := backend2,
            log := s.log ++ [Event.search_file name, Event.send_datagram [0, 4, 0, 0],
              Event.write_block p1 1 500, Event.send_datagram [0, 4, 0, 1],
              Event.write_block p2 2 12, Event.send_datagram [0, 4, 0, 2]] } := by
  have ht1 : List.take (504 - 4) p1 = p1 := List.take_of_length_le (by omega)
  have ht2 : List.take (16 - 4) p2 = p2 := List.take_of_length_le (by omega)
  have hstep0 := parse_wrq_accepted s name [] (2 + name.length + 1 + 5 + 1) f backend0
    (by omega) hname hsearch (by simp [hwb])
  have hstep1 := parse_data_accepted
    (⟨⟨s.ctx.search_file, some f, 1, 2⟩, backend0,
      s.log ++ [Event.search_file name, Event.send_datagram [0, 4, 0, 0]]⟩ : State σ)
    f wb 0 1 p1 504 err1 backend1 rfl rfl hwb (by omega) (by omega) (by omega)
    (Or.inl rfl) (by rw [ht1]; exact hw1) herr1
  have hstep2 := parse_data_accepted
    (⟨⟨s.ctx.search_file, some f, 2, 2⟩, backend1,
      s.log ++ [Event.search_file name, Event.send_datagram [0, 4, 0, 0],
        Event.write_block p1 1 500, Event.send_datagram [0, 4, 0, 1]]⟩ : State σ)
    f wb 0 2 p2 16 err2 backend2 rfl rfl hwb (by omega) (by omega) (by omega)
    (Or.inl rfl) (by rw [ht2]; exact hw2) herr2
  rw [ht1] at hstep1
  rw [ht2] at hstep2
  simp only [List.append_assoc, List.cons_append, List.nil_append, Nat.zero_add,
    Nat.mul_zero, if_true] at hstep1 hstep2
  simp only [main_loop, hstep0, hstep1]
  rw [hstep2]
  rfl

/-- Witness of C15: the transfer of "out.bin" from an idle context, with 500
bytes of value 1 and 12 bytes of value 2. -/
theorem write_transfer_end_to_end_witness :
    main_loop idle_state
        [(0 :: 2 :: (cstr "out.bin" ++ 0 :: (cstr "octet" ++ 0 :: [])),
           2 + (cstr "out.bin").length + 1 + 5 + 1),
         (0 :: 3 :: 0 :: 1 :: List.replicate 500 1, 504),
         (0 :: 3 :: 0 :: 2 :: List.replicate 12 2, 16)] =
      .ok { ctx := { idle_state.ctx with current_file := some write_only_file,
                                         expected_block_number := 3,
                                         current_operation := TFTPV_OP_WRQ },
            backend := (),
            log := idle_state.log ++ [Event.search_file (cstr "out.bin"),
              Event.send_datagram [0, 4, 0, 0],
              Event.write_block (List.replicate 500 1) 1 500, Event.send_datagram [0, 4, 0, 1],
              Event.write_block (List.replicate 12 2) 2 12,
              Event.send_datagram [0, 4, 0, 2]] } :=
  write_transfer_end_to_end idle_state (cstr "out.bin") (List.replicate 500 1)
    (List.replicate 12 2) write_only_file (fun _ _ _ u => (⟨TFTPV_ERR_UNDEFINED, []⟩, u))
    () () () ⟨TFTPV_ERR_UNDEFINED, []⟩ ⟨TFTPV_ERR_UNDEFINED, []⟩ (by decide) rfl rfl
    (List.length_replicate 500 1) (List.length_replicate 12 2) rfl rfl rfl rfl

/-- Claim C16: for an error code `c` from 0 to 7 and a message `m` of at most 507
bytes without NUL (so that `strlen` of the C string is its length),
`send_error` hands exactly one datagram to the transport: `[0, 5, 0, c]`, the
bytes of `m`, and one 0 byte; its length is `4 + |m| + 1`, at most 512. -/
theorem send_error_framing {σ : Type} (s : State σ) (c : Nat) (m : List Nat)
    (hc : c ≤ 7) (hlen : m.length ≤ 507) (hnul : 0 ∉ m) :
    strlen_from (m ++ [0]) = .ok m.length ∧
    send_error s c m =
      .ok { s with log := s.log ++ [Event.send_datagram ([0, 5, 0, c] ++ m ++ [0])] } ∧
    ([0, 5, 0, c] ++ m ++ [0]).length = 4 + m.length + 1 ∧
    ([0, 5, 0, c] ++ m ++ [0]).length ≤ 512 := by
  have e1 : c / 256 % 256 = 0 := by omega
  have e2 : c % 256 = c := by omega
  refine ⟨strlen_from_terminated m [] hnul, ?_, by simp; omega, by simp; omega⟩
  rw [send_error_eq s c m hlen, e1, e2]
  rfl

/-- Witness of C16: ERROR 1 "File not found". -/
theorem send_error_framing_witness :
    send_error idle_state TFTPV_ERR_FILE_NOT_FOUND (cstr "File not found") =
      .ok { idle_state with log := idle_state.log ++
        [Event.send_datagram ([0, 5, 0, 1] ++ cstr "File not found" ++ [0])] } :=
  (send_error_framing idle_state TFTPV_ERR_FILE_NOT_FOUND (cstr "File not found")
    (by decide) (by decide) (by decide)).2.1

/-- Claim C17, evaluated where it fails: right after the accepted WRQ for
"out.bin" (block 1 expected) a DATA datagram with block number 0 passes
`check_block_num` as the duplicate `expected_block_number - 1`; the write
callback is invoked with block number 0 and ACK 0 is sent again. -/
theorem data_block_zero_reaches_write_block :
    main_loop idle_state
        [(0 :: 2 :: (cstr "out.bin" ++ 0 :: (cstr "octet" ++ 0 :: [])), 16),
         ([0, 3, 0, 0, 9, 9], 6)] =
      .ok { ctx := (transfer_state write_only_file TFTPV_OP_WRQ 1).ctx, backend := (),
            log := [Event.search_file (cstr "out.bin"), Event.send_datagram [0, 4, 0, 0],
              Event.write_block [9, 9] 0 2, Event.send_datagram [0, 4, 0, 0]] } :=
  rfl

/-- What block number 0 does to the in-memory writer: the offset is
`(size_t)-512`, a full block passes the size test because `offset + 512` wraps
to 0, and the copy starts 512 bytes in front of the file buffer. -/
theorem write_memfile_block_zero :
    write_memfile (List.replicate 512 9) 0 512 (filedata_of []) =
      .error .out_of_bounds_write :=
  rfl

/-- Claim C18, evaluated where it fails: a read callback that stores a full block
of 512 bytes. Behind the 4-byte header the 512-byte `data_buffer` has 508 bytes
left, so the block does not lie within it and no datagram of 4 + 512 bytes is
produced. -/
theorem full_block_does_not_fit_data_buffer :
    send_data_from_handler idle_state 1 full_block_file = .error .out_of_bounds_write :=
  rfl

/-- Claim C19, evaluated where it fails: a file of recorded size 512 and block 2
with 12 bytes. After one call of `write_memfile` the size is 524; after the
same call again the buffer is the same but the size is 536. -/
theorem write_memfile_duplicate_grows_size :
    write_memfile (List.replicate 12 9) 2 12 ⟨List.replicate 1024 0, 512⟩ =
      .ok (⟨TFTPV_ERR_UNDEFINED, []⟩,
        ⟨List.replicate 512 0 ++ List.replicate 12 9 ++ List.replicate 500 0, 524⟩) ∧
    write_memfile (List.replicate 12 9) 2 12
        ⟨List.replicate 512 0 ++ List.replicate 12 9 ++ List.replicate 500 0, 524⟩ =
      .ok (⟨TFTPV_ERR_UNDEFINED, []⟩,
        ⟨List.replicate 512 0 ++ List.replicate 12 9 ++ List.replicate 500 0, 536⟩) :=
  ⟨rfl, rfl⟩

/-- Claim C20, evaluated where it fails: from the idle context, RRQ "file1" (a
read-only file) is accepted, then RRQ "out.bin" (a write-only file) is
rejected. The context reached has `current_file` set to the write-only file
with `current_operation` still RRQ, although that file has no read callback;
the ACK for block 1 that follows is accepted and the engine calls the NULL
`read_block`. -/
theorem rejected_rrq_leads_to_null_read_block :
    main_loop idle_state
        [(0 :: 1 :: (cstr "file1" ++ 0 :: (cstr "octet" ++ 0 :: [])), 14),
         (0 :: 1 :: (cstr "out.bin" ++ 0 :: (cstr "octet" ++ 0 :: [])), 16)] =
      .ok { ctx := (transfer_state write_only_file TFTPV_OP_RRQ 1).ctx, backend := (),
            log := [Event.search_file (cstr "file1"), Event.read_block 1,
              Event.send_datagram ([0, 3, 0, 1] ++ cstr "0123456789"),
              Event.search_file (cstr "out.bin"), Event.send_datagram
                ([0, 5, 0, 4] ++ cstr "Current operation is unavailable for this file"
                  ++ [0])] } ∧
    write_only_file.read_block.isNone = true ∧
    main_loop idle_state
        [(0 :: 1 :: (cstr "file1" ++ 0 :: (cstr "octet" ++ 0 :: [])), 14),
         (0 :: 1 :: (cstr "out.bin" ++ 0 :: (cstr "octet" ++ 0 :: [])), 16),
         ([0, 4, 0, 1], 4)] =
      .error .null_pointer :=
  ⟨rfl, rfl, rfl⟩

end Tftpv
